import Mathlib

/-!
A shallow embedding of the reptiai backend (Fastify + drizzle/Postgres) and of
the mobile client's session-restore logic, together with proofs about the
CRUD/auth behaviour of the routes.

Modelling conventions:
* uuid / token identifiers are modelled as `Nat`;
* timestamps (JS `Date` values, millisecond epochs) are modelled as `Nat`;
* floating point numeric fields (`weight`, `value`) are modelled as `Int`
  (no claim depends on float semantics);
* the database is a record of lists of rows, one list per table;
* each Fastify handler is a function from the database, the current time,
  the (already extracted) bearer token and its raw, not yet validated input
  to an HTTP response paired with the new database;
* zod schemas are modelled as functions from raw input records to
  `Except` of a list of (field path, message) issues;
* the `ON DELETE cascade` foreign keys declared in the drizzle schema and in
  migration 0005_brief_vampiro.sql are modelled by cascade delete functions.
-/

/-- A JSON value, used for response bodies. -/
inductive Json where
  | null : Json
  | bool (b : Bool) : Json
  | num (n : Int) : Json
  | str (s : String) : Json
  | arr (elems : List Json) : Json
  | obj (fields : List (String × Json)) : Json

mutual

/-- All object keys occurring anywhere in a JSON value. -/
def Json.keys : Json → List String
  | .null => []
  | .bool _ => []
  | .num _ => []
  | .str _ => []
  | .arr xs => Json.keysOfArr xs
  | .obj fs => Json.keysOfObj fs

/-- All object keys occurring in a list of JSON values. -/
def Json.keysOfArr : List Json → List String
  | [] => []
  | x :: xs => x.keys ++ Json.keysOfArr xs

/-- All object keys occurring in a list of JSON object fields. -/
def Json.keysOfObj : List (String × Json) → List String
  | [] => []
  | (k, v) :: fs => k :: (v.keys ++ Json.keysOfObj fs)

end

/-- `timestamp.toISOString()`: timestamps are modelled as naturals, so the
rendering is just the decimal string. -/
def toISOString (t : Nat) : String := toString t

/-- JS `String.prototype.trim()`, modelled on the character list (the built-in
`String.trim` does not reduce in the kernel). -/
def jsTrim (s : String) : String :=
  ⟨((s.data.dropWhile Char.isWhitespace).reverse.dropWhile Char.isWhitespace).reverse⟩

/-- JS `String.prototype.toLowerCase()`, modelled on the character list. -/
def jsToLower (s : String) : String :=
  ⟨s.data.map Char.toLower⟩

/-! ### Data model (from src/backend db/schema.ts and migration 0005) -/

/-- A row of the `user` table. -/
structure User where
  id : Nat
  username : String
  passwordHash : String
  role : String
  isActive : Bool
  createdAt : Nat
  updatedAt : Nat
  deriving DecidableEq, Repr

/-- A row of the `session` table; `id` is the bearer token. -/
structure Session where
  id : Nat
  userId : Nat
  expiresAt : Nat
  createdAt : Nat
  deriving DecidableEq, Repr

/-- A row of the `animal` table (migration 0005_brief_vampiro.sql). -/
structure Animal where
  id : Nat
  userId : Nat
  name : String
  species : Option String
  description : Option String
  birthDate : Option Nat
  sex : Option String
  createdAt : Nat
  updatedAt : Nat
  deriving DecidableEq, Repr

/-- A row of the `feeding_record` table. -/
structure FeedingRecord where
  id : Nat
  userId : Nat
  animalId : Option Nat
  feedingDate : Nat
  consumed : String
  foodType : Option String
  quantity : Option String
  notes : Option String
  weight : Option Int
  createdAt : Nat
  updatedAt : Nat
  deriving DecidableEq, Repr

/-- A row of the `measurement_log` table. -/
structure MeasurementLog where
  id : Nat
  userId : Nat
  animalId : Option Nat
  metricType : String
  value : Option Int
  unit : Option String
  notes : Option String
  recordedAt : Nat
  createdAt : Nat
  updatedAt : Nat
  deriving DecidableEq, Repr

/-- A row of the `reminder` table. -/
structure Reminder where
  id : Nat
  userId : Nat
  animalId : Option Nat
  title : String
  notes : Option String
  isReminder : Bool
  dueDate : Option Nat
  isCompleted : Bool
  notificationId : Option String
  createdAt : Nat
  updatedAt : Nat
  deriving DecidableEq, Repr

/-- The relational store: one list of rows per table used by the claims. -/
structure Db where
  users : List User
  sessions : List Session
  animals : List Animal
  feedings : List FeedingRecord
  measurements : List MeasurementLog
  reminders : List Reminder
  deriving DecidableEq, Repr

/-- The empty database. -/
def Db.empty : Db := ⟨[], [], [], [], [], []⟩

/-! ### Auth helpers (src auth.ts / auth/session.ts) -/

/-- `PublicUser = Omit<User, 'passwordHash'>`. -/
structure PublicUser where
  id : Nat
  username : String
  role : String
  isActive : Bool
  createdAt : Nat
  updatedAt : Nat
  deriving DecidableEq, Repr

/-- `toPublicUser`: drop `passwordHash`, keep the remaining fields. -/
def toPublicUser (u : User) : PublicUser :=
  { id := u.id
    username := u.username
    role := u.role
    isActive := u.isActive
    createdAt := u.createdAt
    updatedAt := u.updatedAt }

/-- `normalizeUsername`. -/
def normalizeUsername (username : String) : String :=
  jsToLower (jsTrim username)

/-- `AuthenticatedContext`. -/
structure AuthenticatedContext where
  session : Session
  user : User
  deriving DecidableEq, Repr

/-- `getActiveSessionByToken`: look the session up by its token, inner-join the
`user` table; when the session is expired or the user inactive, delete the
session row and report no active session. -/
def getActiveSessionByToken (db : Db) (now : Nat) (token : Nat) :
    Option AuthenticatedContext × Db :=
  match db.sessions.find? (fun s => s.id == token) with
  | none => (none, db)
  | some s =>
    match db.users.find? (fun u => u.id == s.userId) with
    | none => (none, db)
    | some u =>
      if s.expiresAt ≤ now || !u.isActive then
        (none, { db with sessions := db.sessions.filter (fun s2 => !(s2.id == token)) })
      else
        (some ⟨s, u⟩, db)

/-- `authenticateRequest` composed with `requireAuth`: a missing token or no
active session yields `none`; the caller then replies 401. -/
def requireAuth (db : Db) (now : Nat) (token : Option Nat) :
    Option AuthenticatedContext × Db :=
  match token with
  | none => (none, db)
  | some t => getActiveSessionByToken db now t

/-! ### HTTP responses -/

/-- An HTTP response: status code and JSON body. -/
structure HttpResponse where
  status : Nat
  body : Json

/-- The 401 response sent by `requireAuth`. -/
def unauthorized : HttpResponse :=
  ⟨401, .obj [("error", .str "Unauthorized")]⟩

/-- A 404 response with the given error message. -/
def notFound (msg : String) : HttpResponse :=
  ⟨404, .obj [("error", .str msg)]⟩

/-- A 409 response with the given error message. -/
def conflict (msg : String) : HttpResponse :=
  ⟨409, .obj [("error", .str msg)]⟩

/-- A 400 response carrying only an error message. -/
def badRequest (msg : String) : HttpResponse :=
  ⟨400, .obj [("error", .str msg)]⟩

/-- A zod issue list: (field path, message) pairs. -/
abbrev ZodError := List (String × String)

/-- The flattened zod error serialized into the `details` property. -/
def detailsJson (e : ZodError) : Json :=
  .obj (e.map (fun i => (i.1, .str i.2)))

/-- A 400 response with `error` and the flattened issues under `details`. -/
def badRequestDetails (msg : String) (e : ZodError) : HttpResponse :=
  ⟨400, .obj [("error", .str msg), ("details", detailsJson e)]⟩

/-- `reply.send({ success: true })`. -/
def successResponse : HttpResponse :=
  ⟨200, .obj [("success", .bool true)]⟩

/-! ### Shared validation building blocks (zod) -/

/-- `z.string().trim().min(1, reqMsg).max(maxLen, maxMsg)` applied to a field
that is present: issues for the trimmed value. -/
def trimmedStringIssues (path reqMsg maxMsg : String) (maxLen : Nat) (s : String) :
    ZodError :=
  (if (jsTrim s).length < 1 then [(path, reqMsg)] else []) ++
    (if maxLen < (jsTrim s).length then [(path, maxMsg)] else [])

/-- Issue for a required field that is absent. -/
def requiredIssue (path : String) (o : Option α) : ZodError :=
  match o with
  | none => [(path, "Required")]
  | some _ => []

/-- `z.string().trim().max(maxLen)` on an optional field. -/
def optionalMaxIssues (path : String) (maxLen : Nat) (o : Option String) : ZodError :=
  match o with
  | none => []
  | some s => if maxLen < (jsTrim s).length then [(path, "String must contain at most " ++ toString maxLen ++ " character(s)")] else []

/-- `notes && notes.length > 0 ? notes : null` (and the analogous guards used
for `unit` and `notificationId`). -/
def sanitizeFalsy (o : Option String) : Option String :=
  match o with
  | none => none
  | some s => if s.length > 0 then some s else none

/-! ### Ordering used by `orderBy(desc(k1), desc(k2))` -/

/-- `a` sorts no later than `b` under `orderBy(desc(k1), desc(k2))`:
lexicographically, `a`'s primary key is larger, or equal with `a`'s secondary
key no smaller. -/
def descLex (k1 k2 : α → Nat) (a b : α) : Prop :=
  k1 b < k1 a ∨ (k1 b = k1 a ∧ k2 b ≤ k2 a)

instance (k1 k2 : α → Nat) : DecidableRel (descLex k1 k2) := fun a b => by
  unfold descLex; infer_instance

instance (k1 k2 : α → Nat) : IsTotal α (descLex k1 k2) :=
  ⟨fun a b => by unfold descLex; omega⟩

instance (k1 k2 : α → Nat) : IsTrans α (descLex k1 k2) :=
  ⟨fun a b c => by unfold descLex; omega⟩

/-- JSON of `value ?? null` for an optional string. -/
def jsonOfOptStr (o : Option String) : Json :=
  match o with
  | some s => .str s
  | none => .null

/-- JSON of `value ?? null` for an optional id. -/
def jsonOfOptNum (o : Option Nat) : Json :=
  match o with
  | some n => .num n
  | none => .null

/-- JSON of `value ?? null` for an optional numeric field. -/
def jsonOfOptInt (o : Option Int) : Json :=
  match o with
  | some n => .num n
  | none => .null

/-- JSON of `value ? value.toISOString() : null` for an optional timestamp. -/
def jsonOfOptIso (o : Option Nat) : Json :=
  match o with
  | some d => .str (toISOString d)
  | none => .null

/-! ### Feedings routes (src routes/feedings.ts, animal-scoped version) -/

/-- `ensureAnimalOwnership`: select the animal by id scoped to the user. -/
def ensureAnimalOwnership (db : Db) (userId animalId : Nat) : Option Animal :=
  db.animals.find? (fun a => a.id == animalId && a.userId == userId)

/-- `toFeedingResponse`. -/
def toFeedingResponse (r : FeedingRecord) : Json :=
  .obj
    [ ("id", .num r.id)
    , ("feedingDate", .str (toISOString r.feedingDate))
    , ("consumed", .str r.consumed)
    , ("foodType", jsonOfOptStr r.foodType)
    , ("quantity", jsonOfOptStr r.quantity)
    , ("notes", jsonOfOptStr r.notes)
    , ("weight", jsonOfOptInt r.weight)
    , ("animalId", jsonOfOptNum r.animalId)
    , ("createdAt", .str (toISOString r.createdAt))
    , ("updatedAt", .str (toISOString r.updatedAt)) ]

/-- The raw (pre-validation) body of `POST /feedings`. -/
structure RawFeedingInput where
  animalId : Option Nat
  feedingDate : Option Nat
  consumed : Option String
  foodType : Option String
  quantity : Option String
  notes : Option String
  weight : Option Int
  deriving DecidableEq, Repr

/-- The body of `POST /feedings` after `feedingInputSchema` succeeded. -/
structure FeedingInput where
  animalId : Nat
  feedingDate : Option Nat
  consumed : Option String
  foodType : String
  quantity : String
  notes : Option String
  weight : Option Int
  deriving DecidableEq, Repr

/-- The issues `feedingInputSchema` raises on a raw body. -/
def feedingInputIssues (r : RawFeedingInput) : ZodError :=
  requiredIssue "animalId" r.animalId ++
    (match r.consumed with
      | none => []
      | some c =>
        if c == "fully" || c == "partially" || c == "refused" then []
        else [("consumed", "Invalid enum value")]) ++
    (match r.foodType with
      | none => [("foodType", "Required")]
      | some s =>
        trimmedStringIssues "foodType" "Food type is required"
          "Food type must be 255 characters or less" 255 s) ++
    (match r.quantity with
      | none => [("quantity", "Required")]
      | some s =>
        trimmedStringIssues "quantity" "Quantity is required"
          "Quantity must be 255 characters or less" 255 s) ++
    optionalMaxIssues "notes" 1000 r.notes ++
    (match r.weight with
      | none => []
      | some w => if 0 < w then [] else [("weight", "Number must be greater than 0")])

/-- `feedingInputSchema.safeParse`. -/
def parseFeedingInput (r : RawFeedingInput) : Except ZodError FeedingInput :=
  match r.animalId, r.foodType, r.quantity with
  | some aid, some ft, some q =>
    if feedingInputIssues r = [] then
      .ok
        { animalId := aid
          feedingDate := r.feedingDate
          consumed := r.consumed
          foodType := jsTrim ft
          quantity := jsTrim q
          notes := r.notes.map jsTrim
          weight := r.weight }
    else .error (feedingInputIssues r)
  | _, _, _ => .error (feedingInputIssues r)

/-- The row inserted by a successful `POST /feedings`. -/
def mkFeedingRecord (userId : Nat) (p : FeedingInput) (newId now : Nat) :
    FeedingRecord :=
  { id := newId
    userId := userId
    animalId := some p.animalId
    feedingDate := p.feedingDate.getD now
    consumed := p.consumed.getD "fully"
    foodType := some (jsTrim p.foodType)
    quantity := some (jsTrim p.quantity)
    notes := sanitizeFalsy p.notes
    weight := p.weight
    createdAt := now
    updatedAt := now }

/-- Handler of `POST /feedings`. -/
def postFeeding (db : Db) (now : Nat) (token : Option Nat) (raw : RawFeedingInput)
    (newId : Nat) : HttpResponse × Db :=
  match requireAuth db now token with
  | (none, db1) => (unauthorized, db1)
  | (some auth, db1) =>
    match parseFeedingInput raw with
    | .error e => (badRequestDetails "Invalid feeding payload" e, db1)
    | .ok p =>
      match ensureAnimalOwnership db1 auth.user.id p.animalId with
      | none => (notFound "Animal not found", db1)
      | some _ =>
        let record := mkFeedingRecord auth.user.id p newId now
        (⟨201, toFeedingResponse record⟩,
          { db1 with feedings := db1.feedings ++ [record] })

/-- The rows matched by the `GET /feedings` list query: filtered by owner and
animal, ordered by `feedingDate` then `createdAt` descending, limited to 200. -/
def feedingsQuery (db : Db) (userId animalId : Nat) : List FeedingRecord :=
  ((db.feedings.filter
      (fun f => f.userId == userId && f.animalId == some animalId)).insertionSort
    (descLex (·.feedingDate) (·.createdAt))).take 200

/-- Handler of `GET /feedings`; the raw query string carries an optional
`animalId`. -/
def getFeedings (db : Db) (now : Nat) (token : Option Nat)
    (rawQuery : Option Nat) : HttpResponse × Db :=
  match requireAuth db now token with
  | (none, db1) => (unauthorized, db1)
  | (some auth, db1) =>
    match rawQuery with
    | none => (badRequest "Invalid feedings query parameters", db1)
    | some animalId =>
      match ensureAnimalOwnership db1 auth.user.id animalId with
      | none => (notFound "Animal not found", db1)
      | some _ =>
        (⟨200, .arr ((feedingsQuery db1 auth.user.id animalId).map toFeedingResponse)⟩,
          db1)

/-- Handler of `DELETE /feedings/:id`; the raw path parameter is `none` when it
is not a valid uuid. -/
def deleteFeeding (db : Db) (now : Nat) (token : Option Nat)
    (rawParams : Option Nat) : HttpResponse × Db :=
  match requireAuth db now token with
  | (none, db1) => (unauthorized, db1)
  | (some auth, db1) =>
    match rawParams with
    | none => (badRequest "Invalid feeding identifier", db1)
    | some id =>
      let deleted :=
        db1.feedings.find? (fun f => f.id == id && f.userId == auth.user.id)
      let db2 :=
        { db1 with
          feedings :=
            db1.feedings.filter (fun f => !(f.id == id && f.userId == auth.user.id)) }
      match deleted with
      | none => (notFound "Feeding record not found", db2)
      | some _ => (successResponse, db2)

/-! ### Measurements routes (src/backend/src/routes/measurements.ts) -/

/-- `MEASUREMENT_LIMIT`. -/
def MEASUREMENT_LIMIT : Nat := 200

/-- `toMeasurementResponse`. -/
def toMeasurementResponse (r : MeasurementLog) : Json :=
  .obj
    [ ("id", .num r.id)
    , ("metricType", .str r.metricType)
    , ("value", jsonOfOptInt r.value)
    , ("unit", jsonOfOptStr r.unit)
    , ("notes", jsonOfOptStr r.notes)
    , ("recordedAt", .str (toISOString r.recordedAt))
    , ("animalId", jsonOfOptNum r.animalId)
    , ("createdAt", .str (toISOString r.createdAt))
    , ("updatedAt", .str (toISOString r.updatedAt)) ]

/-- The raw (pre-validation) body of `POST /measurements`. -/
structure RawMeasurementInput where
  animalId : Option Nat
  metricType : Option String
  value : Option Int
  unit : Option String
  notes : Option String
  recordedAt : Option Nat
  deriving DecidableEq, Repr

/-- The body of `POST /measurements` after `measurementInputSchema`
succeeded. -/
structure MeasurementInput where
  animalId : Nat
  metricType : String
  value : Option Int
  unit : Option String
  notes : Option String
  recordedAt : Option Nat
  deriving DecidableEq, Repr

/-- The issues the base object of `measurementInputSchema` raises. -/
def measurementBaseIssues (r : RawMeasurementInput) : ZodError :=
  requiredIssue "animalId" r.animalId ++
    (match r.metricType with
      | none => [("metricType", "Required")]
      | some s =>
        trimmedStringIssues "metricType" "Metric type is required"
          "Metric type must be at most 64 characters" 64 s) ++
    optionalMaxIssues "unit" 32 r.unit ++
    optionalMaxIssues "notes" 1000 r.notes

/-- The `superRefine` of `measurementInputSchema`: every metric type other
than `note` requires a value. It runs only when the base object parsed. -/
def measurementRefineIssues (metricType : String) (value : Option Int) : ZodError :=
  if jsToLower metricType != "note" && value == none then
    [("value", "Value is required for this measurement type")]
  else []

/-- `measurementInputSchema.safeParse`. -/
def parseMeasurementInput (r : RawMeasurementInput) :
    Except ZodError MeasurementInput :=
  match r.animalId, r.metricType with
  | some aid, some mt =>
    if measurementBaseIssues r = [] then
      if measurementRefineIssues (jsTrim mt) r.value = [] then
        .ok
          { animalId := aid
            metricType := jsTrim mt
            value := r.value
            unit := r.unit.map jsTrim
            notes := r.notes.map jsTrim
            recordedAt := r.recordedAt }
      else .error (measurementRefineIssues (jsTrim mt) r.value)
    else .error (measurementBaseIssues r)
  | _, _ => .error (measurementBaseIssues r)

/-- The row inserted by a successful `POST /measurements`. -/
def mkMeasurementLog (userId : Nat) (p : MeasurementInput) (newId now : Nat) :
    MeasurementLog :=
  { id := newId
    userId := userId
    animalId := some p.animalId
    metricType := p.metricType
    value := p.value
    unit := sanitizeFalsy p.unit
    notes := sanitizeFalsy p.notes
    recordedAt := p.recordedAt.getD now
    createdAt := now
    updatedAt := now }

/-- Handler of `POST /measurements`. -/
def postMeasurement (db : Db) (now : Nat) (token : Option Nat)
    (raw : RawMeasurementInput) (newId : Nat) : HttpResponse × Db :=
  match requireAuth db now token with
  | (none, db1) => (unauthorized, db1)
  | (some auth, db1) =>
    match parseMeasurementInput raw with
    | .error e => (badRequestDetails "Invalid measurement payload" e, db1)
    | .ok p =>
      match ensureAnimalOwnership db1 auth.user.id p.animalId with
      | none => (notFound "Animal not found", db1)
      | some _ =>
        let record := mkMeasurementLog auth.user.id p newId now
        (⟨201, toMeasurementResponse record⟩,
          { db1 with measurements := db1.measurements ++ [record] })

/-- The rows matched by the `GET /measurements` list query: filtered by owner
and animal, ordered by `recordedAt` then `createdAt` descending, limited to
`MEASUREMENT_LIMIT`. -/
def measurementsQuery (db : Db) (userId animalId : Nat) : List MeasurementLog :=
  ((db.measurements.filter
      (fun m => m.userId == userId && m.animalId == some animalId)).insertionSort
    (descLex (·.recordedAt) (·.createdAt))).take MEASUREMENT_LIMIT

/-- Handler of `GET /measurements`. -/
def getMeasurements (db : Db) (now : Nat) (token : Option Nat)
    (rawQuery : Option Nat) : HttpResponse × Db :=
  match requireAuth db now token with
  | (none, db1) => (unauthorized, db1)
  | (some auth, db1) =>
    match rawQuery with
    | none => (badRequest "Invalid measurements query parameters", db1)
    | some animalId =>
      match ensureAnimalOwnership db1 auth.user.id animalId with
      | none => (notFound "Animal not found", db1)
      | some _ =>
        (⟨200, .arr ((measurementsQuery db1 auth.user.id animalId).map toMeasurementResponse)⟩,
          db1)

/-- Handler of `DELETE /measurements/:id`. -/
def deleteMeasurement (db : Db) (now : Nat) (token : Option Nat)
    (rawParams : Option Nat) : HttpResponse × Db :=
  match requireAuth db now token with
  | (none, db1) => (unauthorized, db1)
  | (some auth, db1) =>
    match rawParams with
    | none => (badRequest "Invalid measurement identifier", db1)
    | some id =>
      let deleted :=
        db1.measurements.find? (fun m => m.id == id && m.userId == auth.user.id)
      let db2 :=
        { db1 with
          measurements :=
            db1.measurements.filter
              (fun m => !(m.id == id && m.userId == auth.user.id)) }
      match deleted with
      | none => (notFound "Measurement not found", db2)
      | some _ => (successResponse, db2)

/-! ### Reminders routes (src/backend/src/routes/reminders.ts) -/

/-- `toReminderResponse`. -/
def toReminderResponse (r : Reminder) : Json :=
  .obj
    [ ("id", .num r.id)
    , ("title", .str r.title)
    , ("notes", jsonOfOptStr r.notes)
    , ("isReminder", .bool r.isReminder)
    , ("dueDate", jsonOfOptIso r.dueDate)
    , ("isCompleted", .bool r.isCompleted)
    , ("notificationId", jsonOfOptStr r.notificationId)
    , ("animalId", jsonOfOptNum r.animalId)
    , ("createdAt", .str (toISOString r.createdAt))
    , ("updatedAt", .str (toISOString r.updatedAt)) ]

/-- The raw (pre-validation) body of `POST /reminders`. -/
structure RawCreateReminder where
  animalId : Option Nat
  title : Option String
  notes : Option String
  isReminder : Option Bool
  dueDate : Option Nat
  notificationId : Option String
  deriving DecidableEq, Repr

/-- The body of `POST /reminders` after `createReminderSchema` succeeded. -/
structure CreateReminderInput where
  animalId : Nat
  title : String
  notes : Option String
  isReminder : Option Bool
  dueDate : Option Nat
  notificationId : Option String
  deriving DecidableEq, Repr

/-- The issues `createReminderSchema` raises on a raw body. -/
def createReminderIssues (r : RawCreateReminder) : ZodError :=
  requiredIssue "animalId" r.animalId ++
    (match r.title with
      | none => [("title", "Required")]
      | some s =>
        trimmedStringIssues "title" "Title must be at least 1 character long"
          "Title must be 255 characters or less" 255 s) ++
    optionalMaxIssues "notes" 2000 r.notes ++
    optionalMaxIssues "notificationId" 255 r.notificationId

/-- `createReminderSchema.safeParse`. -/
def parseCreateReminder (r : RawCreateReminder) :
    Except ZodError CreateReminderInput :=
  match r.animalId, r.title with
  | some aid, some t =>
    if createReminderIssues r = [] then
      .ok
        { animalId := aid
          title := jsTrim t
          notes := r.notes.map jsTrim
          isReminder := r.isReminder
          dueDate := r.dueDate
          notificationId := r.notificationId.map jsTrim }
    else .error (createReminderIssues r)
  | _, _ => .error (createReminderIssues r)

/-- The row inserted by a successful `POST /reminders`. -/
def mkReminder (userId : Nat) (p : CreateReminderInput) (newId now : Nat) :
    Reminder :=
  { id := newId
    userId := userId
    animalId := some p.animalId
    title := p.title
    notes := sanitizeFalsy p.notes
    isReminder := p.isReminder.getD false
    dueDate := p.dueDate
    isCompleted := false
    notificationId := sanitizeFalsy p.notificationId
    createdAt := now
    updatedAt := now }

/-- Handler of `POST /reminders`. -/
def postReminder (db : Db) (now : Nat) (token : Option Nat)
    (raw : RawCreateReminder) (newId : Nat) : HttpResponse × Db :=
  match requireAuth db now token with
  | (none, db1) => (unauthorized, db1)
  | (some auth, db1) =>
    match parseCreateReminder raw with
    | .error e => (badRequestDetails "Invalid reminder payload" e, db1)
    | .ok p =>
      match ensureAnimalOwnership db1 auth.user.id p.animalId with
      | none => (notFound "Animal not found", db1)
      | some _ =>
        let record := mkReminder auth.user.id p newId now
        (⟨201, toReminderResponse record⟩,
          { db1 with reminders := db1.reminders ++ [record] })

/-- The rows matched by the `GET /reminders` list query: filtered by owner and
animal, ordered by `dueDate` (nulls treated as 0 here) then `createdAt`
descending; no limit. -/
def remindersQuery (db : Db) (userId animalId : Nat) : List Reminder :=
  (db.reminders.filter
      (fun r => r.userId == userId && r.animalId == some animalId)).insertionSort
    (descLex (fun r => (r.dueDate).getD 0) (·.createdAt))

/-- Handler of `GET /reminders`. -/
def getReminders (db : Db) (now : Nat) (token : Option Nat)
    (rawQuery : Option Nat) : HttpResponse × Db :=
  match requireAuth db now token with
  | (none, db1) => (unauthorized, db1)
  | (some auth, db1) =>
    match rawQuery with
    | none => (badRequest "Invalid reminders query parameters", db1)
    | some animalId =>
      match ensureAnimalOwnership db1 auth.user.id animalId with
      | none => (notFound "Animal not found", db1)
      | some _ =>
        (⟨200, .arr ((remindersQuery db1 auth.user.id animalId).map toReminderResponse)⟩,
          db1)

/-- The raw (pre-validation) body of `PATCH /reminders/:id`. `dueDate` and
`notificationId` are `.nullable().optional()`: absent, explicit null, or a
value. -/
structure RawUpdateReminder where
  title : Option String
  notes : Option String
  isReminder : Option Bool
  dueDate : Option (Option Nat)
  isCompleted : Option Bool
  notificationId : Option (Option String)
  deriving DecidableEq, Repr

/-- The body of `PATCH /reminders/:id` after `updateReminderSchema`
succeeded. -/
structure UpdateReminderInput where
  title : Option String
  notes : Option String
  isReminder : Option Bool
  dueDate : Option (Option Nat)
  isCompleted : Option Bool
  notificationId : Option (Option String)
  animalId : Option Nat
  deriving DecidableEq, Repr

/-- The raw `animalId` accompanies the rest of the raw update body. -/
structure RawUpdateReminderBody where
  fields : RawUpdateReminder
  animalId : Option Nat
  deriving DecidableEq, Repr

/-- The issues `updateReminderSchema` raises on a raw body. -/
def updateReminderIssues (r : RawUpdateReminderBody) : ZodError :=
  (match r.fields.title with
    | none => []
    | some s => trimmedStringIssues "title"
        "String must contain at least 1 character(s)"
        "String must contain at most 255 character(s)" 255 s) ++
    optionalMaxIssues "notes" 2000 r.fields.notes ++
    (match r.fields.notificationId with
      | none => []
      | some none => []
      | some (some s) => optionalMaxIssues "notificationId" 255 (some s))

/-- `updateReminderSchema.safeParse`. -/
def parseUpdateReminder (r : RawUpdateReminderBody) :
    Except ZodError UpdateReminderInput :=
  if updateReminderIssues r = [] then
    .ok
      { title := (r.fields.title).map jsTrim
        notes := (r.fields.notes).map jsTrim
        isReminder := r.fields.isReminder
        dueDate := r.fields.dueDate
        isCompleted := r.fields.isCompleted
        notificationId := (r.fields.notificationId).map (·.map jsTrim)
        animalId := r.animalId }
  else .error (updateReminderIssues r)

/-- `Object.keys(updates).length` for the parsed update body. -/
def UpdateReminderInput.keyCount (u : UpdateReminderInput) : Nat :=
  (if u.title.isSome then 1 else 0) + (if u.notes.isSome then 1 else 0) +
    (if u.isReminder.isSome then 1 else 0) + (if u.dueDate.isSome then 1 else 0) +
    (if u.isCompleted.isSome then 1 else 0) +
    (if u.notificationId.isSome then 1 else 0) +
    (if u.animalId.isSome then 1 else 0)

/-- The `updatePayload` applied to a reminder row by `PATCH /reminders/:id`
(the `animalId` ownership check has already passed when this is applied). -/
def applyReminderUpdate (u : UpdateReminderInput) (now : Nat) (r : Reminder) :
    Reminder :=
  { r with
    updatedAt := now
    title := match u.title with | some t => t | none => r.title
    notes :=
      match u.notes with
      | some n => sanitizeFalsy (some n)
      | none => r.notes
    isReminder := match u.isReminder with | some b => b | none => r.isReminder
    dueDate := match u.dueDate with | some d => d | none => r.dueDate
    isCompleted := match u.isCompleted with | some b => b | none => r.isCompleted
    notificationId :=
      match u.notificationId with
      | some n => sanitizeFalsy (n.getD "")
      | none => r.notificationId
    animalId := match u.animalId with | some a => some a | none => r.animalId }

/-- Handler of `PATCH /reminders/:id`. -/
def patchReminder (db : Db) (now : Nat) (token : Option Nat)
    (rawParams : Option Nat) (rawBody : RawUpdateReminderBody) :
    HttpResponse × Db :=
  match requireAuth db now token with
  | (none, db1) => (unauthorized, db1)
  | (some auth, db1) =>
    match rawParams with
    | none => (badRequest "Invalid reminder identifier", db1)
    | some id =>
      match parseUpdateReminder rawBody with
      | .error e => (badRequestDetails "Invalid reminder update payload" e, db1)
      | .ok updates =>
        if updates.keyCount = 0 then
          (badRequest "No fields provided to update", db1)
        else
          let ownershipOk :=
            match updates.animalId with
            | none => true
            | some aid => (ensureAnimalOwnership db1 auth.user.id aid).isSome
          if !ownershipOk then (notFound "Animal not found", db1)
          else
            let updated :=
              db1.reminders.find? (fun r => r.id == id && r.userId == auth.user.id)
            let db2 :=
              { db1 with
                reminders :=
                  db1.reminders.map
                    (fun r =>
                      if r.id == id && r.userId == auth.user.id then
                        applyReminderUpdate updates now r
                      else r) }
            match updated with
            | none => (notFound "Reminder not found", db2)
            | some r => (⟨200, toReminderResponse (applyReminderUpdate updates now r)⟩, db2)

/-- Handler of `DELETE /reminders/:id`. -/
def deleteReminder (db : Db) (now : Nat) (token : Option Nat)
    (rawParams : Option Nat) : HttpResponse × Db :=
  match requireAuth db now token with
  | (none, db1) => (unauthorized, db1)
  | (some auth, db1) =>
    match rawParams with
    | none => (badRequest "Invalid reminder identifier", db1)
    | some id =>
      let deleted :=
        db1.reminders.find? (fun r => r.id == id && r.userId == auth.user.id)
      let db2 :=
        { db1 with
          reminders :=
            db1.reminders.filter (fun r => !(r.id == id && r.userId == auth.user.id)) }
      match deleted with
      | none => (notFound "Reminder not found", db2)
      | some _ => (successResponse, db2)

/-! ### Animals routes (src routes/animals.ts) -/

/-- `toAnimalResponse`. -/
def toAnimalResponse (r : Animal) : Json :=
  .obj
    [ ("id", .num r.id)
    , ("name", .str r.name)
    , ("species", jsonOfOptStr r.species)
    , ("description", jsonOfOptStr r.description)
    , ("birthDate", jsonOfOptIso r.birthDate)
    , ("sex", jsonOfOptStr r.sex)
    , ("createdAt", .str (toISOString r.createdAt))
    , ("updatedAt", .str (toISOString r.updatedAt)) ]

/-- The raw (pre-validation) body of `POST /animals`. -/
structure RawCreateAnimal where
  name : Option String
  species : Option String
  description : Option String
  birthDate : Option Nat
  sex : Option String
  deriving DecidableEq, Repr

/-- The issues `createAnimalSchema` raises on a raw body. -/
def createAnimalIssues (r : RawCreateAnimal) : ZodError :=
  (match r.name with
    | none => [("name", "Required")]
    | some s =>
      trimmedStringIssues "name" "Name must be at least 1 character long"
        "Name must be 100 characters or less" 100 s) ++
    optionalMaxIssues "species" 100 r.species ++
    optionalMaxIssues "description" 1000 r.description ++
    optionalMaxIssues "sex" 32 r.sex

/-- The body of `POST /animals` after `createAnimalSchema` succeeded. -/
structure CreateAnimalInput where
  name : String
  species : Option String
  description : Option String
  birthDate : Option Nat
  sex : Option String
  deriving DecidableEq, Repr

/-- `createAnimalSchema.safeParse`. -/
def parseCreateAnimal (r : RawCreateAnimal) : Except ZodError CreateAnimalInput :=
  match r.name with
  | some n =>
    if createAnimalIssues r = [] then
      .ok
        { name := jsTrim n
          species := r.species.map jsTrim
          description := r.description.map jsTrim
          birthDate := r.birthDate
          sex := r.sex.map jsTrim }
    else .error (createAnimalIssues r)
  | none => .error (createAnimalIssues r)

/-- `sanitizeOptionalString`. -/
def sanitizeOptionalString (value : Option String) : Option String :=
  match value with
  | none => none
  | some s => if (jsTrim s).length > 0 then some (jsTrim s) else none

/-- `sanitizeCreateAnimalPayload` applied and turned into the inserted row. -/
def mkAnimal (userId : Nat) (p : CreateAnimalInput) (newId now : Nat) : Animal :=
  { id := newId
    userId := userId
    name := jsTrim p.name
    species := sanitizeOptionalString p.species
    description := sanitizeOptionalString p.description
    birthDate := p.birthDate
    sex := sanitizeOptionalString p.sex
    createdAt := now
    updatedAt := now }

/-- Handler of `POST /animals`: after validation, a duplicate (user, name)
pair is rejected with 409 before the insert. -/
def postAnimal (db : Db) (now : Nat) (token : Option Nat)
    (raw : RawCreateAnimal) (newId : Nat) : HttpResponse × Db :=
  match requireAuth db now token with
  | (none, db1) => (unauthorized, db1)
  | (some auth, db1) =>
    match parseCreateAnimal raw with
    | .error e => (badRequestDetails "Invalid animal payload" e, db1)
    | .ok p =>
      match db1.animals.find?
          (fun a => a.userId == auth.user.id && a.name == jsTrim p.name) with
      | some _ => (conflict "An animal with this name already exists", db1)
      | none =>
        let record := mkAnimal auth.user.id p newId now
        (⟨201, toAnimalResponse record⟩,
          { db1 with animals := db1.animals ++ [record] })

/-- The raw (pre-validation) body of `PATCH /animals/:id`. `birthDate` and
`sex` are `.nullable().optional()`. -/
structure RawUpdateAnimal where
  name : Option String
  species : Option String
  description : Option String
  birthDate : Option (Option Nat)
  sex : Option (Option String)
  deriving DecidableEq, Repr

/-- The issues `updateAnimalSchema` raises on a raw body (ignoring the
`refine` that rejects an empty object, which the handler re-checks after
sanitizing). -/
def updateAnimalIssues (r : RawUpdateAnimal) : ZodError :=
  (match r.name with
    | none => []
    | some s =>
      trimmedStringIssues "name" "Name must be at least 1 character long"
        "Name must be 100 characters or less" 100 s) ++
    optionalMaxIssues "species" 100 r.species ++
    optionalMaxIssues "description" 1000 r.description ++
    (match r.sex with
      | none => []
      | some none => []
      | some (some s) => optionalMaxIssues "sex" 32 (some s))

/-- Whether the raw update body carries no field at all (rejected by the
schema refine with "No fields provided to update"). -/
def RawUpdateAnimal.isEmpty (r : RawUpdateAnimal) : Bool :=
  r.name.isNone && r.species.isNone && r.description.isNone &&
    r.birthDate.isNone && r.sex.isNone

/-- The body of `PATCH /animals/:id` after `updateAnimalSchema` succeeded. -/
structure UpdateAnimalInput where
  name : Option String
  species : Option String
  description : Option String
  birthDate : Option (Option Nat)
  sex : Option (Option String)
  deriving DecidableEq, Repr

/-- `updateAnimalSchema.safeParse` (including the nonempty-object refine). -/
def parseUpdateAnimal (r : RawUpdateAnimal) : Except ZodError UpdateAnimalInput :=
  if r.isEmpty then .error [("", "No fields provided to update")]
  else if updateAnimalIssues r = [] then
    .ok
      { name := r.name.map jsTrim
        species := r.species.map jsTrim
        description := r.description.map jsTrim
        birthDate := r.birthDate
        sex := r.sex.map (·.map jsTrim) }
  else .error (updateAnimalIssues r)

/-- `sanitizeUpdateAnimalPayload`: the per-field update actually applied. -/
def applyAnimalUpdate (u : UpdateAnimalInput) (now : Nat) (a : Animal) : Animal :=
  { a with
    updatedAt := now
    name := match u.name with | some n => jsTrim n | none => a.name
    species :=
      match u.species with
      | some s => sanitizeOptionalString (some s)
      | none => a.species
    description :=
      match u.description with
      | some s => sanitizeOptionalString (some s)
      | none => a.description
    birthDate := match u.birthDate with | some d => d | none => a.birthDate
    sex :=
      match u.sex with
      | some s => sanitizeOptionalString (s.getD "")
      | none => a.sex }

/-- `Object.keys(updates).length = 0` for the sanitized update payload. -/
def UpdateAnimalInput.isEmpty (u : UpdateAnimalInput) : Bool :=
  u.name.isNone && u.species.isNone && u.description.isNone &&
    u.birthDate.isNone && u.sex.isNone

/-- The update/404 tail of the `PATCH /animals/:id` handler. -/
def patchAnimalApply (db1 : Db) (now : Nat) (auth : AuthenticatedContext)
    (id : Nat) (updates : UpdateAnimalInput) : HttpResponse × Db :=
  let updated :=
    db1.animals.find? (fun a => a.id == id && a.userId == auth.user.id)
  let db2 :=
    { db1 with
      animals :=
        db1.animals.map
          (fun a =>
            if a.id == id && a.userId == auth.user.id then
              applyAnimalUpdate updates now a
            else a) }
  match updated with
  | none => (notFound "Animal not found", db2)
  | some a => (⟨200, toAnimalResponse (applyAnimalUpdate updates now a)⟩, db2)

/-- Handler of `PATCH /animals/:id`: the duplicate-name check (409) runs
before the ownership-scoped update whose empty result yields 404. -/
def patchAnimal (db : Db) (now : Nat) (token : Option Nat)
    (rawParams : Option Nat) (rawBody : RawUpdateAnimal) : HttpResponse × Db :=
  match requireAuth db now token with
  | (none, db1) => (unauthorized, db1)
  | (some auth, db1) =>
    match rawParams with
    | none => (badRequest "Invalid animal identifier", db1)
    | some id =>
      match parseUpdateAnimal rawBody with
      | .error e => (badRequestDetails "Invalid animal update payload" e, db1)
      | .ok updates =>
        if updates.isEmpty then (badRequest "No fields provided to update", db1)
        else
          let dup : Option Animal :=
            match updates.name with
            | none => none
            | some n =>
              db1.animals.find?
                (fun a => a.userId == auth.user.id && a.name == jsTrim n)
          match dup with
          | some d =>
            if d.id != id then
              (conflict "An animal with this name already exists", db1)
            else
              patchAnimalApply db1 now auth id updates
          | none => patchAnimalApply db1 now auth id updates

/-! ### Cascading deletes (drizzle schema + migration 0005_brief_vampiro.sql) -/

/-- Whether an optional `animal_id` reference is among the deleted ids. -/
def refsAnimal (animalId : Option Nat) (deletedIds : List Nat) : Bool :=
  match animalId with
  | some a => deletedIds.contains a
  | none => false

/-- `DELETE FROM animal WHERE <pred>` together with the `ON DELETE cascade`
constraints on `feeding_record.animal_id`, `measurement_log.animal_id` and
`reminder.animal_id`. -/
def cascadeAnimalDelete (db : Db) (pred : Animal → Bool) : Db :=
  let deletedIds := (db.animals.filter pred).map (·.id)
  { db with
    animals := db.animals.filter (fun a => !pred a)
    feedings := db.feedings.filter (fun f => !refsAnimal f.animalId deletedIds)
    measurements := db.measurements.filter (fun m => !refsAnimal m.animalId deletedIds)
    reminders := db.reminders.filter (fun r => !refsAnimal r.animalId deletedIds) }

/-- `DELETE FROM "user" WHERE id = uid` together with the `ON DELETE cascade`
constraints on `session.user_id`, `animal.user_id`, `feeding_record.user_id`,
`measurement_log.user_id` and `reminder.user_id`, and the animal cascade for
the user's animals. -/
def dbDeleteUser (db : Db) (uid : Nat) : Db :=
  let deletedAnimals := (db.animals.filter (fun a => a.userId == uid)).map (·.id)
  { users := db.users.filter (fun u => !(u.id == uid))
    sessions := db.sessions.filter (fun s => !(s.userId == uid))
    animals := db.animals.filter (fun a => !(a.userId == uid))
    feedings := db.feedings.filter
      (fun f => !(f.userId == uid) && !refsAnimal f.animalId deletedAnimals)
    measurements := db.measurements.filter
      (fun m => !(m.userId == uid) && !refsAnimal m.animalId deletedAnimals)
    reminders := db.reminders.filter
      (fun r => !(r.userId == uid) && !refsAnimal r.animalId deletedAnimals) }

/-- `DELETE FROM animal WHERE id = aid` (DB-level, unscoped) with its
cascades. -/
def dbDeleteAnimal (db : Db) (aid : Nat) : Db :=
  cascadeAnimalDelete db (fun a => a.id == aid)

/-- Handler of `DELETE /animals/:id`: the route deletes the animal scoped by
owner; the database then cascades the delete to the rows referencing it. -/
def deleteAnimal (db : Db) (now : Nat) (token : Option Nat)
    (rawParams : Option Nat) : HttpResponse × Db :=
  match requireAuth db now token with
  | (none, db1) => (unauthorized, db1)
  | (some auth, db1) =>
    match rawParams with
    | none => (badRequest "Invalid animal identifier", db1)
    | some id =>
      let deleted :=
        db1.animals.find? (fun a => a.id == id && a.userId == auth.user.id)
      let db2 :=
        cascadeAnimalDelete db1 (fun a => a.id == id && a.userId == auth.user.id)
      match deleted with
      | none => (notFound "Animal not found", db2)
      | some _ => (successResponse, db2)

/-! ### Auth routes (src routes/auth.ts) -/

/-- `SESSION_TTL_HOURS` (env default). -/
def SESSION_TTL_HOURS : Nat := 24

/-- The raw body of `POST /auth/register` and `POST /auth/login`. -/
structure RawCredentials where
  username : Option String
  password : Option String
  deriving DecidableEq, Repr

/-- The parsed credentials. -/
structure CredentialsInput where
  username : String
  password : String
  deriving DecidableEq, Repr

/-- Whether every character of the username is a letter, digit, dot,
underscore or dash (the `credentialsSchema` regex). -/
def usernameCharsOk (s : String) : Bool :=
  s.toList.all (fun c =>
    c.isAlpha || c.isDigit || c == '.' || c == '_' || c == '-')

/-- The issues `credentialsSchema` raises. -/
def credentialsIssues (r : RawCredentials) : ZodError :=
  (match r.username with
    | none => [("username", "Required")]
    | some s =>
      (if s.length < 3 then [("username", "Username must be at least 3 characters long")] else []) ++
        (if 32 < s.length then [("username", "Username must be at most 32 characters long")] else []) ++
        (if usernameCharsOk s then []
          else [("username", "Username can only include letters, numbers, dots, underscores, or dashes")])) ++
    (match r.password with
      | none => [("password", "Required")]
      | some s =>
        (if s.length < 8 then [("password", "Password must be at least 8 characters long")] else []) ++
          (if 72 < s.length then [("password", "Password must be at most 72 characters long")] else []))

/-- `credentialsSchema.safeParse`. -/
def parseCredentials (r : RawCredentials) : Except ZodError CredentialsInput :=
  match r.username, r.password with
  | some u, some p =>
    if credentialsIssues r = [] then .ok ⟨u, p⟩
    else .error (credentialsIssues r)
  | _, _ => .error (credentialsIssues r)

/-- `findUserByUsername`. -/
def findUserByUsername (db : Db) (username : String) : Option User :=
  db.users.find? (fun u => u.username == username)

/-- The `{ token, expiresAt }` payload returned with auth responses. -/
structure SessionPayload where
  token : Nat
  expiresAt : Nat
  deriving DecidableEq, Repr

/-- `createSession`: insert a session expiring `SESSION_TTL_HOURS` from now. -/
def createSession (db : Db) (userId token now : Nat) : SessionPayload × Db :=
  let expiresAt := now + SESSION_TTL_HOURS * 60 * 60 * 1000
  (⟨token, expiresAt⟩,
    { db with
      sessions := db.sessions ++ [⟨token, userId, expiresAt, now⟩] })

/-- The JSON rendering of `toPublicUser`. -/
def publicUserJson (u : PublicUser) : Json :=
  .obj
    [ ("id", .num u.id)
    , ("username", .str u.username)
    , ("role", .str u.role)
    , ("isActive", .bool u.isActive)
    , ("createdAt", .str (toISOString u.createdAt))
    , ("updatedAt", .str (toISOString u.updatedAt)) ]

/-- The JSON rendering of an `AuthResponse`. -/
def authResponseJson (u : User) (s : SessionPayload) : Json :=
  .obj
    [ ("user", publicUserJson (toPublicUser u))
    , ("session", .obj
        [ ("token", .num s.token)
        , ("expiresAt", .str (toISOString s.expiresAt)) ]) ]

/-- Handler of `POST /auth/register`. `passwordHash` is the result of the
(bcrypt) `hashPassword` call, supplied by the environment. -/
def registerUser (db : Db) (now : Nat) (raw : RawCredentials)
    (passwordHash : String) (newUserId token : Nat) : HttpResponse × Db :=
  match parseCredentials raw with
  | .error e => (badRequestDetails "Invalid credentials payload" e, db)
  | .ok p =>
    let normalizedUsername := normalizeUsername p.username
    match findUserByUsername db normalizedUsername with
    | some _ => (conflict "Username is already taken", db)
    | none =>
      let createdUser : User :=
        { id := newUserId
          username := normalizedUsername
          passwordHash := passwordHash
          role := "user"
          isActive := true
          createdAt := now
          updatedAt := now }
      let db1 := { db with users := db.users ++ [createdUser] }
      let (payload, db2) := createSession db1 createdUser.id token now
      (⟨201, authResponseJson createdUser payload⟩, db2)

/-- Handler of `POST /auth/login`. `verify` is the (bcrypt) `verifyPassword`
function, supplied by the environment. -/
def loginUser (db : Db) (now : Nat) (raw : RawCredentials)
    (verify : String → String → Bool) (token : Nat) : HttpResponse × Db :=
  match parseCredentials raw with
  | .error e => (badRequestDetails "Invalid credentials payload" e, db)
  | .ok p =>
    let normalizedUsername := normalizeUsername p.username
    match findUserByUsername db normalizedUsername with
    | none => (⟨401, .obj [("error", .str "Invalid username or password")]⟩, db)
    | some existingUser =>
      if !existingUser.isActive then
        (⟨403, .obj [("error", .str "Account is inactive. Contact an administrator.")]⟩, db)
      else if !(verify p.password existingUser.passwordHash) then
        (⟨401, .obj [("error", .str "Invalid username or password")]⟩, db)
      else
        let (payload, db1) := createSession db existingUser.id token now
        (⟨200, authResponseJson existingUser payload⟩, db1)

/-- Handler of `GET /auth/me`. -/
def getMe (db : Db) (now : Nat) (token : Option Nat) : HttpResponse × Db :=
  match token with
  | none => (⟨401, .obj [("error", .str "Missing authorization token")]⟩, db)
  | some t =>
    match getActiveSessionByToken db now t with
    | (none, db1) => (⟨401, .obj [("error", .str "Session not found or expired")]⟩, db1)
    | (some ctx, db1) =>
      (⟨200, authResponseJson ctx.user ⟨ctx.session.id, ctx.session.expiresAt⟩⟩, db1)

/-- Handler of `POST /auth/logout`. -/
def logoutUser (db : Db) (token : Option Nat) : HttpResponse × Db :=
  match token with
  | none => (successResponse, db)
  | some t =>
    (successResponse,
      { db with sessions := db.sessions.filter (fun s => !(s.id == t)) })

/-! ### Route registration (which endpoints each register function exposes) -/

/-- HTTP methods used by the routes. -/
inductive Method where
  | get : Method
  | post : Method
  | patch : Method
  | delete : Method
  deriving DecidableEq, Repr

/-- Endpoints registered by `registerAnimalRoutes`. -/
def animalRoutes : List (Method × String) :=
  [ (.get, "/animals")
  , (.post, "/animals")
  , (.patch, "/animals/:id")
  , (.delete, "/animals/:id") ]

/-- Endpoints registered by `registerFeedingRoutes`. -/
def feedingRoutes : List (Method × String) :=
  [ (.post, "/feedings")
  , (.get, "/feedings")
  , (.delete, "/feedings/:id") ]

/-- Endpoints registered by `registerMeasurementRoutes`. -/
def measurementRoutes : List (Method × String) :=
  [ (.post, "/measurements")
  , (.get, "/measurements")
  , (.delete, "/measurements/:id") ]

/-- Endpoints registered by `registerReminderRoutes`. -/
def reminderRoutes : List (Method × String) :=
  [ (.post, "/reminders")
  , (.get, "/reminders")
  , (.patch, "/reminders/:id")
  , (.delete, "/reminders/:id") ]

/-! ### Mobile session restore (src/mobile/contexts/AuthContext.tsx) -/

/-- The user object cached by the mobile client. -/
structure AuthUser where
  id : Nat
  username : String
  role : String
  createdAt : Nat
  updatedAt : Nat
  deriving DecidableEq, Repr

/-- The session object cached by the mobile client. -/
structure AuthSession where
  token : Nat
  expiresAt : Nat
  deriving DecidableEq, Repr

/-- The `StoredAuthState` persisted under `@reptiai/auth-state`. -/
structure StoredAuthState where
  user : AuthUser
  session : AuthSession
  deriving DecidableEq, Repr

/-- `isSessionExpired`. -/
def isSessionExpired (session : Option AuthSession) (now : Nat) : Bool :=
  match session with
  | none => true
  | some s => s.expiresAt ≤ now

/-- The outcome of the `/auth/me` request `restoreSession` would make. -/
inductive MeResult where
  | success (user : AuthUser) (session : AuthSession) : MeResult
  | httpError (status : Nat) : MeResult
  | networkError : MeResult
  deriving DecidableEq, Repr

/-- The auth state after `restoreSession`: the in-memory user/session pair,
the persisted storage, and whether the server was contacted. -/
structure RestoreOutcome where
  user : Option AuthUser
  session : Option AuthSession
  storage : Option StoredAuthState
  contacted : Bool
  deriving DecidableEq, Repr

/-- `restoreSession`: discard an expired cached session without contacting the
server; otherwise call `/auth/me` with the cached token and (a) clear the
cache on 401/403, (b) keep the cached state on any other failure, (c) replace
it with the refreshed state on success. -/
def restoreSession (stored : Option StoredAuthState) (now : Nat)
    (me : MeResult) : RestoreOutcome :=
  match stored with
  | none => ⟨none, none, none, false⟩
  | some parsed =>
    if isSessionExpired (some parsed.session) now then
      ⟨none, none, none, false⟩
    else
      match me with
      | .success u s => ⟨some u, some s, some ⟨u, s⟩, true⟩
      | .httpError status =>
        if status = 401 || status = 403 then ⟨none, none, none, true⟩
        else ⟨some parsed.user, some parsed.session, some parsed, true⟩
      | .networkError => ⟨some parsed.user, some parsed.session, some parsed, true⟩

/-! ### The operations of the API, as one step type -/

/-- One request against the API (or a DB-level parent deletion), with every
environment-supplied datum (fresh ids, tokens, the bcrypt functions) as
constructor data. -/
inductive Op where
  | register (raw : RawCredentials) (passwordHash : String) (newUserId token : Nat) : Op
  | login (raw : RawCredentials) (verify : String → String → Bool) (token : Nat) : Op
  | me (token : Option Nat) : Op
  | logout (token : Option Nat) : Op
  | animalCreate (token : Option Nat) (raw : RawCreateAnimal) (newId : Nat) : Op
  | animalPatch (token : Option Nat) (rawParams : Option Nat) (rawBody : RawUpdateAnimal) : Op
  | animalDelete (token : Option Nat) (rawParams : Option Nat) : Op
  | feedingCreate (token : Option Nat) (raw : RawFeedingInput) (newId : Nat) : Op
  | feedingList (token : Option Nat) (rawQuery : Option Nat) : Op
  | feedingDelete (token : Option Nat) (rawParams : Option Nat) : Op
  | measurementCreate (token : Option Nat) (raw : RawMeasurementInput) (newId : Nat) : Op
  | measurementList (token : Option Nat) (rawQuery : Option Nat) : Op
  | measurementDelete (token : Option Nat) (rawParams : Option Nat) : Op
  | reminderCreate (token : Option Nat) (raw : RawCreateReminder) (newId : Nat) : Op
  | reminderList (token : Option Nat) (rawQuery : Option Nat) : Op
  | reminderPatch (token : Option Nat) (rawParams : Option Nat) (rawBody : RawUpdateReminderBody) : Op
  | reminderDelete (token : Option Nat) (rawParams : Option Nat) : Op
  | userDrop (uid : Nat) : Op
  | animalDrop (aid : Nat) : Op

/-- Run one operation against the database. The DB-level deletions
(`userDrop`, `animalDrop`) return `successResponse` as a placeholder. -/
def applyOp (now : Nat) (op : Op) (db : Db) : HttpResponse × Db :=
  match op with
  | .register raw passwordHash newUserId token => registerUser db now raw passwordHash newUserId token
  | .login raw verify token => loginUser db now raw verify token
  | .me token => getMe db now token
  | .logout token => logoutUser db token
  | .animalCreate token raw newId => postAnimal db now token raw newId
  | .animalPatch token rawParams rawBody => patchAnimal db now token rawParams rawBody
  | .animalDelete token rawParams => deleteAnimal db now token rawParams
  | .feedingCreate token raw newId => postFeeding db now token raw newId
  | .feedingList token rawQuery => getFeedings db now token rawQuery
  | .feedingDelete token rawParams => deleteFeeding db now token rawParams
  | .measurementCreate token raw newId => postMeasurement db now token raw newId
  | .measurementList token rawQuery => getMeasurements db now token rawQuery
  | .measurementDelete token rawParams => deleteMeasurement db now token rawParams
  | .reminderCreate token raw newId => postReminder db now token raw newId
  | .reminderList token rawQuery => getReminders db now token rawQuery
  | .reminderPatch token rawParams rawBody => patchReminder db now token rawParams rawBody
  | .reminderDelete token rawParams => deleteReminder db now token rawParams
  | .userDrop uid => (successResponse, dbDeleteUser db uid)
  | .animalDrop aid => (successResponse, dbDeleteAnimal db aid)

/-- The bearer token an operation authenticates with, when the route is an
authenticated resource route (`requireAuth` / `getActiveSessionByToken`). -/
def Op.authToken : Op → Option (Option Nat)
  | .register _ _ _ _ => none
  | .login _ _ _ => none
  | .me token => some token
  | .logout _ => none
  | .animalCreate token _ _ => some token
  | .animalPatch token _ _ => some token
  | .animalDelete token _ => some token
  | .feedingCreate token _ _ => some token
  | .feedingList token _ => some token
  | .feedingDelete token _ => some token
  | .measurementCreate token _ _ => some token
  | .measurementList token _ => some token
  | .measurementDelete token _ => some token
  | .reminderCreate token _ _ => some token
  | .reminderList token _ => some token
  | .reminderPatch token _ _ => some token
  | .reminderDelete token _ => some token
  | .userDrop _ => none
  | .animalDrop _ => none

/-! ### Basic lemmas about authentication -/

theorem getActiveSessionByToken_tables (db : Db) (now t : Nat) :
    (getActiveSessionByToken db now t).2.users = db.users ∧
      (getActiveSessionByToken db now t).2.animals = db.animals ∧
      (getActiveSessionByToken db now t).2.feedings = db.feedings ∧
      (getActiveSessionByToken db now t).2.measurements = db.measurements ∧
      (getActiveSessionByToken db now t).2.reminders = db.reminders := by
  unfold getActiveSessionByToken
  repeat' split
  all_goals simp

theorem getActiveSessionByToken_sessions_subset (db : Db) (now t : Nat) :
    ∀ s ∈ (getActiveSessionByToken db now t).2.sessions, s ∈ db.sessions := by
  unfold getActiveSessionByToken
  repeat' split
  all_goals intro s hs
  all_goals first
    | exact hs
    | exact List.mem_filter.mp hs |>.1

theorem getActiveSessionByToken_some (db : Db) (now t : Nat)
    (ctx : AuthenticatedContext) (db2 : Db)
    (h : getActiveSessionByToken db now t = (some ctx, db2)) :
    db2 = db ∧ ctx.user ∈ db.users ∧ ctx.session ∈ db.sessions := by
  unfold getActiveSessionByToken at h
  cases hs : db.sessions.find? (fun s2 => s2.id == t) with
  | none => simp only [hs] at h; exact absurd h (by simp)
  | some s =>
    simp only [hs] at h
    cases hu : db.users.find? (fun u => u.id == s.userId) with
    | none => simp only [hu] at h; exact absurd h (by simp)
    | some u =>
      simp only [hu] at h
      by_cases hc : (s.expiresAt ≤ now || !u.isActive) = true
      · rw [if_pos hc] at h; simp at h
      · rw [if_neg hc] at h
        injection h with h1 h2
        injection h1 with h1
        subst h2
        rw [← h1]
        exact ⟨rfl, List.mem_of_find?_eq_some hu, List.mem_of_find?_eq_some hs⟩

theorem requireAuth_some (db : Db) (now : Nat) (tok : Option Nat)
    (ctx : AuthenticatedContext) (db2 : Db)
    (h : requireAuth db now tok = (some ctx, db2)) :
    db2 = db ∧ ctx.user ∈ db.users := by
  unfold requireAuth at h
  split at h
  · simp at h
  · rename_i t
    have := getActiveSessionByToken_some db now t ctx db2 h
    exact ⟨this.1, this.2.1⟩

theorem requireAuth_expired (db : Db) (now t : Nat) (s : Session)
    (h1 : db.sessions.find? (fun s2 => s2.id == t) = some s)
    (h2 : s.expiresAt ≤ now) :
    ∃ db2, requireAuth db now (some t) = (none, db2) ∧
      db2.users = db.users ∧ db2.animals = db.animals ∧
      db2.feedings = db.feedings ∧ db2.measurements = db.measurements ∧
      db2.reminders = db.reminders := by
  have hr : requireAuth db now (some t) = getActiveSessionByToken db now t := rfl
  unfold getActiveSessionByToken at hr
  simp only [h1] at hr
  cases hu : db.users.find? (fun u => u.id == s.userId) with
  | none =>
    simp only [hu] at hr
    exact ⟨db, hr, rfl, rfl, rfl, rfl, rfl⟩
  | some u =>
    simp only [hu] at hr
    refine ⟨{ db with sessions := db.sessions.filter (fun s2 => !(s2.id == t)) },
      ?_, rfl, rfl, rfl, rfl, rfl⟩
    rw [hr]
    simp [h2]

/-! ### Claim C2: expired sessions are rejected -/

/-- C2: every authenticated route carrying a bearer token whose session row is
expired (`expiresAt ≤ now`) answers 401 and leaves every resource table
(users, animals, feedings, measurements, reminders) untouched; only the
expired session row itself may be cleaned up. -/
theorem expiredSessionsRejected (now : Nat) (op : Op) (db : Db) (t : Nat)
    (s : Session) (htok : op.authToken = some (some t))
    (hfind : db.sessions.find? (fun s2 => s2.id == t) = some s)
    (hexp : s.expiresAt ≤ now) :
    (applyOp now op db).1.status = 401 ∧
      (applyOp now op db).2.users = db.users ∧
      (applyOp now op db).2.animals = db.animals ∧
      (applyOp now op db).2.feedings = db.feedings ∧
      (applyOp now op db).2.measurements = db.measurements ∧
      (applyOp now op db).2.reminders = db.reminders := by
  obtain ⟨db2, hauth, hu, ha, hf, hm, hr⟩ := requireAuth_expired db now t s hfind hexp
  cases op with
  | me token =>
    simp only [Op.authToken, Option.some.injEq] at htok
    subst htok
    have hgas : getActiveSessionByToken db now t = (none, db2) := hauth
    simp [applyOp, getMe, hgas, hu, ha, hf, hm, hr]
  | animalCreate token raw newId =>
    simp only [Op.authToken, Option.some.injEq] at htok
    subst htok
    simp [applyOp, postAnimal, hauth, unauthorized, hu, ha, hf, hm, hr]
  | animalPatch token rawParams rawBody =>
    simp only [Op.authToken, Option.some.injEq] at htok
    subst htok
    simp [applyOp, patchAnimal, hauth, unauthorized, hu, ha, hf, hm, hr]
  | animalDelete token rawParams =>
    simp only [Op.authToken, Option.some.injEq] at htok
    subst htok
    simp [applyOp, deleteAnimal, hauth, unauthorized, hu, ha, hf, hm, hr]
  | feedingCreate token raw newId =>
    simp only [Op.authToken, Option.some.injEq] at htok
    subst htok
    simp [applyOp, postFeeding, hauth, unauthorized, hu, ha, hf, hm, hr]
  | feedingList token rawQuery =>
    simp only [Op.authToken, Option.some.injEq] at htok
    subst htok
    simp [applyOp, getFeedings, hauth, unauthorized, hu, ha, hf, hm, hr]
  | feedingDelete token rawParams =>
    simp only [Op.authToken, Option.some.injEq] at htok
    subst htok
    simp [applyOp, deleteFeeding, hauth, unauthorized, hu, ha, hf, hm, hr]
  | measurementCreate token raw newId =>
    simp only [Op.authToken, Option.some.injEq] at htok
    subst htok
    simp [applyOp, postMeasurement, hauth, unauthorized, hu, ha, hf, hm, hr]
  | measurementList token rawQuery =>
    simp only [Op.authToken, Option.some.injEq] at htok
    subst htok
    simp [applyOp, getMeasurements, hauth, unauthorized, hu, ha, hf, hm, hr]
  | measurementDelete token rawParams =>
    simp only [Op.authToken, Option.some.injEq] at htok
    subst htok
    simp [applyOp, deleteMeasurement, hauth, unauthorized, hu, ha, hf, hm, hr]
  | reminderCreate token raw newId =>
    simp only [Op.authToken, Option.some.injEq] at htok
    subst htok
    simp [applyOp, postReminder, hauth, unauthorized, hu, ha, hf, hm, hr]
  | reminderList token rawQuery =>
    simp only [Op.authToken, Option.some.injEq] at htok
    subst htok
    simp [applyOp, getReminders, hauth, unauthorized, hu, ha, hf, hm, hr]
  | reminderPatch token rawParams rawBody =>
    simp only [Op.authToken, Option.some.injEq] at htok
    subst htok
    simp [applyOp, patchReminder, hauth, unauthorized, hu, ha, hf, hm, hr]
  | reminderDelete token rawParams =>
    simp only [Op.authToken, Option.some.injEq] at htok
    subst htok
    simp [applyOp, deleteReminder, hauth, unauthorized, hu, ha, hf, hm, hr]
  | register raw passwordHash newUserId token => simp [Op.authToken] at htok
  | login raw verify token => simp [Op.authToken] at htok
  | logout token => simp [Op.authToken] at htok
  | userDrop uid => simp [Op.authToken] at htok
  | animalDrop aid => simp [Op.authToken] at htok

/-- A user for the concrete scenarios. -/
def aliceUser : User :=
  { id := 1, username := "alice", passwordHash := "bcrypt-hash-a", role := "user"
    isActive := true, createdAt := 0, updatedAt := 0 }

/-- A second user for the concrete scenarios. -/
def bobUser : User :=
  { id := 2, username := "bob", passwordHash := "bcrypt-hash-b", role := "user"
    isActive := true, createdAt := 0, updatedAt := 0 }

/-- A database with one user whose only session has expired. -/
def expiredDb : Db :=
  { users := [aliceUser]
    sessions := [⟨7, 1, 5, 0⟩]
    animals := []
    feedings := []
    measurements := []
    reminders := [] }

/-- Witness for C2: at time 10 the token-7 session (expiry 5) is expired, the
feedings list route answers 401 and the resource tables are untouched. -/
theorem expiredSessionsRejected_witness :
    ((Op.feedingList (some 7) (some 1)).authToken = some (some 7) ∧
      expiredDb.sessions.find? (fun s2 => s2.id == 7) = some ⟨7, 1, 5, 0⟩ ∧
      (Session.mk 7 1 5 0).expiresAt ≤ 10) ∧
    ((applyOp 10 (.feedingList (some 7) (some 1)) expiredDb).1.status = 401 ∧
      (applyOp 10 (.feedingList (some 7) (some 1)) expiredDb).2.users = expiredDb.users ∧
      (applyOp 10 (.feedingList (some 7) (some 1)) expiredDb).2.animals = expiredDb.animals ∧
      (applyOp 10 (.feedingList (some 7) (some 1)) expiredDb).2.feedings = expiredDb.feedings ∧
      (applyOp 10 (.feedingList (some 7) (some 1)) expiredDb).2.measurements = expiredDb.measurements ∧
      (applyOp 10 (.feedingList (some 7) (some 1)) expiredDb).2.reminders = expiredDb.reminders) :=
  ⟨⟨rfl, by decide, by decide⟩,
    expiredSessionsRejected 10 (.feedingList (some 7) (some 1)) expiredDb 7
      ⟨7, 1, 5, 0⟩ rfl (by decide) (by decide)⟩

/-! ### Claim C7: entity lifecycle endpoints -/

/-- C7 counterexample: `registerFeedingRoutes` and `registerMeasurementRoutes`
register no PATCH endpoint at all, so feeding records and measurement logs
cannot be updated through their resource routes. -/
theorem fullLifecycle_counterexample :
    (∀ r ∈ feedingRoutes, r.1 ≠ Method.patch) ∧
      (∀ r ∈ measurementRoutes, r.1 ≠ Method.patch) := by decide

/-- C7 (amended): animals and reminders have the full POST/PATCH/DELETE
lifecycle; feeding records and measurement logs are created by POST and
deleted by DELETE but have no PATCH endpoint. -/
theorem resourceLifecycle :
    ((Method.post, "/animals") ∈ animalRoutes ∧
      (Method.patch, "/animals/:id") ∈ animalRoutes ∧
      (Method.delete, "/animals/:id") ∈ animalRoutes) ∧
    ((Method.post, "/reminders") ∈ reminderRoutes ∧
      (Method.patch, "/reminders/:id") ∈ reminderRoutes ∧
      (Method.delete, "/reminders/:id") ∈ reminderRoutes) ∧
    ((Method.post, "/feedings") ∈ feedingRoutes ∧
      (Method.delete, "/feedings/:id") ∈ feedingRoutes ∧
      ∀ r ∈ feedingRoutes, r.1 ≠ Method.patch) ∧
    ((Method.post, "/measurements") ∈ measurementRoutes ∧
      (Method.delete, "/measurements/:id") ∈ measurementRoutes ∧
      ∀ r ∈ measurementRoutes, r.1 ≠ Method.patch) := by decide

/-! ### Claim C8: session restore on app start -/

/-- C8: `restoreSession` discards an expired cached session without contacting
the server; otherwise it contacts `/auth/me` and (a) clears the cached state
on 401/403, (b) keeps the cached state on any other failure, (c) replaces it
with the refreshed state on success. -/
theorem restoreSessionBehaviour (stored : StoredAuthState) (now : Nat)
    (me : MeResult) :
    (stored.session.expiresAt ≤ now →
      restoreSession (some stored) now me = ⟨none, none, none, false⟩) ∧
    (¬ stored.session.expiresAt ≤ now →
      (restoreSession (some stored) now me).contacted = true ∧
      (∀ status, me = .httpError status → (status = 401 ∨ status = 403) →
        restoreSession (some stored) now me = ⟨none, none, none, true⟩) ∧
      (∀ status, me = .httpError status → status ≠ 401 → status ≠ 403 →
        restoreSession (some stored) now me =
          ⟨some stored.user, some stored.session, some stored, true⟩) ∧
      (me = .networkError →
        restoreSession (some stored) now me =
          ⟨some stored.user, some stored.session, some stored, true⟩) ∧
      (∀ u s, me = .success u s →
        restoreSession (some stored) now me = ⟨some u, some s, some ⟨u, s⟩, true⟩)) := by
  constructor
  · intro hexp
    simp [restoreSession, isSessionExpired, hexp]
  · intro hexp
    refine ⟨?_, ?_, ?_, ?_, ?_⟩
    · cases me with
      | success u s => simp [restoreSession, isSessionExpired, hexp]
      | httpError status =>
        simp [restoreSession, isSessionExpired, hexp]
        split <;> rfl
      | networkError => simp [restoreSession, isSessionExpired, hexp]
    · intro status hme h4
      subst hme
      rcases h4 with h | h <;> simp [restoreSession, isSessionExpired, hexp, h]
    · intro status hme h401 h403
      subst hme
      simp [restoreSession, isSessionExpired, hexp, h401, h403]
    · intro hme
      subst hme
      simp [restoreSession, isSessionExpired, hexp]
    · intro u s hme
      subst hme
      simp [restoreSession, isSessionExpired, hexp]

/-- Witness for C8: a cached session expiring at 5 is dropped at time 10
without contact; at time 0 a network error keeps the cached state. -/
theorem restoreSessionBehaviour_witness :
    ((Session.mk 7 1 5 0).expiresAt ≤ 10 ∧ ¬ (Session.mk 7 1 5 0).expiresAt ≤ 0) ∧
    restoreSession (some ⟨⟨1, "alice", "user", 0, 0⟩, ⟨7, 5⟩⟩) 10 .networkError =
      ⟨none, none, none, false⟩ ∧
    restoreSession (some ⟨⟨1, "alice", "user", 0, 0⟩, ⟨7, 5⟩⟩) 0 .networkError =
      ⟨some ⟨1, "alice", "user", 0, 0⟩, some ⟨7, 5⟩,
        some ⟨⟨1, "alice", "user", 0, 0⟩, ⟨7, 5⟩⟩, true⟩ :=
  ⟨⟨by decide, by decide⟩,
    (restoreSessionBehaviour ⟨⟨1, "alice", "user", 0, 0⟩, ⟨7, 5⟩⟩ 10 .networkError).1
      (by decide),
    ((restoreSessionBehaviour ⟨⟨1, "alice", "user", 0, 0⟩, ⟨7, 5⟩⟩ 0 .networkError).2
      (by decide)).2.2.2.1 rfl⟩

/-! ### Claim C9: responses never expose `passwordHash` -/

theorem keys_jsonOfOptStr (o : Option String) : (jsonOfOptStr o).keys = [] := by
  cases o <;> rfl

theorem keys_jsonOfOptNum (o : Option Nat) : (jsonOfOptNum o).keys = [] := by
  cases o <;> rfl

theorem keys_jsonOfOptInt (o : Option Int) : (jsonOfOptInt o).keys = [] := by
  cases o <;> rfl

theorem keys_jsonOfOptIso (o : Option Nat) : (jsonOfOptIso o).keys = [] := by
  cases o <;> rfl

theorem keys_toFeedingResponse (r : FeedingRecord) :
    (toFeedingResponse r).keys =
      ["id", "feedingDate", "consumed", "foodType", "quantity", "notes",
        "weight", "animalId", "createdAt", "updatedAt"] := by
  simp [toFeedingResponse, Json.keys, Json.keysOfObj, keys_jsonOfOptStr,
    keys_jsonOfOptNum, keys_jsonOfOptInt]

theorem keys_toMeasurementResponse (r : MeasurementLog) :
    (toMeasurementResponse r).keys =
      ["id", "metricType", "value", "unit", "notes", "recordedAt", "animalId",
        "createdAt", "updatedAt"] := by
  simp [toMeasurementResponse, Json.keys, Json.keysOfObj, keys_jsonOfOptStr,
    keys_jsonOfOptNum, keys_jsonOfOptInt]

theorem keys_toReminderResponse (r : Reminder) :
    (toReminderResponse r).keys =
      ["id", "title", "notes", "isReminder", "dueDate", "isCompleted",
        "notificationId", "animalId", "createdAt", "updatedAt"] := by
  simp [toReminderResponse, Json.keys, Json.keysOfObj, keys_jsonOfOptStr,
    keys_jsonOfOptNum, keys_jsonOfOptIso]

theorem keys_toAnimalResponse (r : Animal) :
    (toAnimalResponse r).keys =
      ["id", "name", "species", "description", "birthDate", "sex",
        "createdAt", "updatedAt"] := by
  simp [toAnimalResponse, Json.keys, Json.keysOfObj, keys_jsonOfOptStr,
    keys_jsonOfOptIso]

theorem keys_publicUserJson (u : PublicUser) :
    (publicUserJson u).keys =
      ["id", "username", "role", "isActive", "createdAt", "updatedAt"] := by
  simp [publicUserJson, Json.keys, Json.keysOfObj]

theorem keys_authResponseJson (u : User) (s : SessionPayload) :
    (authResponseJson u s).keys =
      ["user", "id", "username", "role", "isActive", "createdAt", "updatedAt",
        "session", "token", "expiresAt"] := by
  simp [authResponseJson, publicUserJson, Json.keys, Json.keysOfObj]

theorem keysOfObj_strMap (e : ZodError) :
    Json.keysOfObj (e.map (fun i => (i.1, Json.str i.2))) = e.map (·.1) := by
  induction e with
  | nil => rfl
  | cons i tl ih => simp [Json.keysOfObj, Json.keys, ih]

theorem noHash_errObj (m : String) :
    "passwordHash" ∉ (Json.obj [("error", Json.str m)]).keys := by
  simp [Json.keys, Json.keysOfObj]

theorem noHash_notFound (m : String) : "passwordHash" ∉ (notFound m).body.keys :=
  noHash_errObj m

theorem noHash_conflict (m : String) : "passwordHash" ∉ (conflict m).body.keys :=
  noHash_errObj m

theorem noHash_badRequest (m : String) :
    "passwordHash" ∉ (badRequest m).body.keys :=
  noHash_errObj m

theorem noHash_unauthorized : "passwordHash" ∉ unauthorized.body.keys :=
  noHash_errObj "Unauthorized"

theorem noHash_successResponse : "passwordHash" ∉ successResponse.body.keys := by
  simp [successResponse, Json.keys, Json.keysOfObj]

/-- Every issue path in the list differs from `k`. -/
def pathsAll (e : ZodError) (k : String) : Prop := ∀ i ∈ e, i.1 ≠ k

theorem pathsAll_nil (k : String) : pathsAll [] k := by
  intro i hi; simp at hi

theorem pathsAll_single (path msg k : String) (h : path ≠ k) :
    pathsAll [(path, msg)] k := by
  intro i hi; simp at hi; subst hi; exact h

theorem pathsAll_append {a b : ZodError} {k : String}
    (ha : pathsAll a k) (hb : pathsAll b k) : pathsAll (a ++ b) k := by
  intro i hi
  rcases List.mem_append.mp hi with h | h
  · exact ha i h
  · exact hb i h

theorem pathsAll_requiredIssue {α : Type} (path k : String) (o : Option α)
    (h : path ≠ k) : pathsAll (requiredIssue path o) k := by
  unfold requiredIssue
  cases o with
  | none => exact pathsAll_single path "Required" k h
  | some _ => exact pathsAll_nil k

theorem pathsAll_trimmedStringIssues (path m1 m2 k : String) (n : Nat)
    (s : String) (h : path ≠ k) :
    pathsAll (trimmedStringIssues path m1 m2 n s) k := by
  unfold trimmedStringIssues
  refine pathsAll_append ?_ ?_ <;> split <;>
    first
      | exact pathsAll_nil k
      | exact pathsAll_single path _ k h

theorem pathsAll_optionalMaxIssues (path k : String) (n : Nat)
    (o : Option String) (h : path ≠ k) :
    pathsAll (optionalMaxIssues path n o) k := by
  unfold optionalMaxIssues
  repeat' split
  all_goals first
    | exact pathsAll_nil k
    | exact pathsAll_single path _ k h

theorem feedingIssues_noHash (r : RawFeedingInput) :
    pathsAll (feedingInputIssues r) "passwordHash" := by
  unfold feedingInputIssues
  repeat' (first | apply pathsAll_append | split)
  all_goals first
    | exact pathsAll_nil _
    | exact pathsAll_single _ _ _ (by decide)
    | exact pathsAll_requiredIssue _ _ _ (by decide)
    | exact pathsAll_trimmedStringIssues _ _ _ _ _ _ (by decide)
    | exact pathsAll_optionalMaxIssues _ _ _ _ (by decide)

theorem measurementIssues_noHash (r : RawMeasurementInput) :
    pathsAll (measurementBaseIssues r) "passwordHash" := by
  unfold measurementBaseIssues
  repeat' (first | apply pathsAll_append | split)
  all_goals first
    | exact pathsAll_nil _
    | exact pathsAll_single _ _ _ (by decide)
    | exact pathsAll_requiredIssue _ _ _ (by decide)
    | exact pathsAll_trimmedStringIssues _ _ _ _ _ _ (by decide)
    | exact pathsAll_optionalMaxIssues _ _ _ _ (by decide)

theorem measurementRefine_noHash (mt : String) (v : Option Int) :
    pathsAll (measurementRefineIssues mt v) "passwordHash" := by
  unfold measurementRefineIssues
  split
  · exact pathsAll_single _ _ _ (by decide)
  · exact pathsAll_nil _

theorem createReminderIssues_noHash (r : RawCreateReminder) :
    pathsAll (createReminderIssues r) "passwordHash" := by
  unfold createReminderIssues
  repeat' (first | apply pathsAll_append | split)
  all_goals first
    | exact pathsAll_nil _
    | exact pathsAll_single _ _ _ (by decide)
    | exact pathsAll_requiredIssue _ _ _ (by decide)
    | exact pathsAll_trimmedStringIssues _ _ _ _ _ _ (by decide)
    | exact pathsAll_optionalMaxIssues _ _ _ _ (by decide)

theorem updateReminderIssues_noHash (r : RawUpdateReminderBody) :
    pathsAll (updateReminderIssues r) "passwordHash" := by
  unfold updateReminderIssues
  repeat' (first | apply pathsAll_append | split)
  all_goals first
    | exact pathsAll_nil _
    | exact pathsAll_single _ _ _ (by decide)
    | exact pathsAll_requiredIssue _ _ _ (by decide)
    | exact pathsAll_trimmedStringIssues _ _ _ _ _ _ (by decide)
    | exact pathsAll_optionalMaxIssues _ _ _ _ (by decide)

theorem createAnimalIssues_noHash (r : RawCreateAnimal) :
    pathsAll (createAnimalIssues r) "passwordHash" := by
  unfold createAnimalIssues
  repeat' (first | apply pathsAll_append | split)
  all_goals first
    | exact pathsAll_nil _
    | exact pathsAll_single _ _ _ (by decide)
    | exact pathsAll_requiredIssue _ _ _ (by decide)
    | exact pathsAll_trimmedStringIssues _ _ _ _ _ _ (by decide)
    | exact pathsAll_optionalMaxIssues _ _ _ _ (by decide)

theorem updateAnimalIssues_noHash (r : RawUpdateAnimal) :
    pathsAll (updateAnimalIssues r) "passwordHash" := by
  unfold updateAnimalIssues
  repeat' (first | apply pathsAll_append | split)
  all_goals first
    | exact pathsAll_nil _
    | exact pathsAll_single _ _ _ (by decide)
    | exact pathsAll_requiredIssue _ _ _ (by decide)
    | exact pathsAll_trimmedStringIssues _ _ _ _ _ _ (by decide)
    | exact pathsAll_optionalMaxIssues _ _ _ _ (by decide)

theorem credentialsIssues_noHash (r : RawCredentials) :
    pathsAll (credentialsIssues r) "passwordHash" := by
  unfold credentialsIssues
  repeat' (first | apply pathsAll_append | split)
  all_goals first
    | exact pathsAll_nil _
    | exact pathsAll_single _ _ _ (by decide)
    | exact pathsAll_requiredIssue _ _ _ (by decide)
    | exact pathsAll_trimmedStringIssues _ _ _ _ _ _ (by decide)
    | exact pathsAll_optionalMaxIssues _ _ _ _ (by decide)

theorem noHash_badRequestDetails (m : String) (e : ZodError)
    (he : pathsAll e "passwordHash") :
    "passwordHash" ∉ (badRequestDetails m e).body.keys := by
  show "passwordHash" ∉ (Json.obj [("error", .str m), ("details", detailsJson e)]).keys
  simp only [detailsJson, Json.keys, Json.keysOfObj, keysOfObj_strMap]
  intro hmem
  simp at hmem
  obtain ⟨x, hx⟩ := hmem
  exact he _ hx rfl

theorem noHash_keysOfArr_map {α : Type} (enc : α → Json)
    (hk : ∀ x, "passwordHash" ∉ (enc x).keys) (l : List α) :
    "passwordHash" ∉ Json.keysOfArr (l.map enc) := by
  induction l with
  | nil => simp [Json.keysOfArr]
  | cons x xs ih =>
    simp only [List.map_cons, Json.keysOfArr, List.mem_append]
    intro h
    rcases h with h | h
    · exact hk x h
    · exact ih h

theorem noHash_feedingBody (r : FeedingRecord) :
    "passwordHash" ∉ (toFeedingResponse r).keys := by
  rw [keys_toFeedingResponse]; simp

theorem noHash_measurementBody (r : MeasurementLog) :
    "passwordHash" ∉ (toMeasurementResponse r).keys := by
  rw [keys_toMeasurementResponse]; simp

theorem noHash_reminderBody (r : Reminder) :
    "passwordHash" ∉ (toReminderResponse r).keys := by
  rw [keys_toReminderResponse]; simp

theorem noHash_animalBody (r : Animal) :
    "passwordHash" ∉ (toAnimalResponse r).keys := by
  rw [keys_toAnimalResponse]; simp

theorem noHash_authBody (u : User) (s : SessionPayload) :
    "passwordHash" ∉ (authResponseJson u s).keys := by
  rw [keys_authResponseJson]; simp

theorem parseFeedingInput_noHash (r : RawFeedingInput) (e : ZodError)
    (h : parseFeedingInput r = .error e) : pathsAll e "passwordHash" := by
  unfold parseFeedingInput at h
  repeat' split at h
  all_goals first
    | (injection h with h; exact h ▸ feedingIssues_noHash r)
    | exact absurd h (by simp)

theorem parseMeasurementInput_noHash (r : RawMeasurementInput) (e : ZodError)
    (h : parseMeasurementInput r = .error e) : pathsAll e "passwordHash" := by
  unfold parseMeasurementInput at h
  repeat' split at h
  all_goals first
    | (injection h with h; exact h ▸ measurementIssues_noHash r)
    | (injection h with h; exact h ▸ measurementRefine_noHash _ _)
    | exact absurd h (by simp)

theorem parseCreateReminder_noHash (r : RawCreateReminder) (e : ZodError)
    (h : parseCreateReminder r = .error e) : pathsAll e "passwordHash" := by
  unfold parseCreateReminder at h
  repeat' split at h
  all_goals first
    | (injection h with h; exact h ▸ createReminderIssues_noHash r)
    | exact absurd h (by simp)

theorem parseUpdateReminder_noHash (r : RawUpdateReminderBody) (e : ZodError)
    (h : parseUpdateReminder r = .error e) : pathsAll e "passwordHash" := by
  unfold parseUpdateReminder at h
  repeat' split at h
  all_goals first
    | (injection h with h; exact h ▸ updateReminderIssues_noHash r)
    | exact absurd h (by simp)

theorem parseCreateAnimal_noHash (r : RawCreateAnimal) (e : ZodError)
    (h : parseCreateAnimal r = .error e) : pathsAll e "passwordHash" := by
  unfold parseCreateAnimal at h
  repeat' split at h
  all_goals first
    | (injection h with h; exact h ▸ createAnimalIssues_noHash r)
    | exact absurd h (by simp)

theorem parseUpdateAnimal_noHash (r : RawUpdateAnimal) (e : ZodError)
    (h : parseUpdateAnimal r = .error e) : pathsAll e "passwordHash" := by
  unfold parseUpdateAnimal at h
  repeat' split at h
  all_goals first
    | (injection h with h; exact h ▸ updateAnimalIssues_noHash r)
    | (injection h with h; exact h ▸ pathsAll_single _ _ _ (by decide))
    | exact absurd h (by simp)

theorem parseCredentials_noHash (r : RawCredentials) (e : ZodError)
    (h : parseCredentials r = .error e) : pathsAll e "passwordHash" := by
  unfold parseCredentials at h
  repeat' split at h
  all_goals first
    | (injection h with h; exact h ▸ credentialsIssues_noHash r)
    | exact absurd h (by simp)

theorem noHash_postFeeding (db : Db) (now : Nat) (tok : Option Nat)
    (raw : RawFeedingInput) (newId : Nat) :
    "passwordHash" ∉ ((postFeeding db now tok raw newId).1).body.keys := by
  unfold postFeeding
  repeat' split
  all_goals first
    | exact noHash_unauthorized
    | exact noHash_notFound _
    | exact noHash_feedingBody _
    | (apply noHash_badRequestDetails
       apply parseFeedingInput_noHash raw
       assumption)

theorem noHash_getFeedings (db : Db) (now : Nat) (tok : Option Nat)
    (rawQuery : Option Nat) :
    "passwordHash" ∉ ((getFeedings db now tok rawQuery).1).body.keys := by
  unfold getFeedings
  repeat' split
  all_goals first
    | exact noHash_unauthorized
    | exact noHash_notFound _
    | exact noHash_badRequest _
    | exact noHash_keysOfArr_map toFeedingResponse noHash_feedingBody _

theorem noHash_deleteFeeding (db : Db) (now : Nat) (tok : Option Nat)
    (rawParams : Option Nat) :
    "passwordHash" ∉ ((deleteFeeding db now tok rawParams).1).body.keys := by
  unfold deleteFeeding
  repeat' (first | split | dsimp only)
  all_goals first
    | exact noHash_unauthorized
    | exact noHash_notFound _
    | exact noHash_badRequest _
    | exact noHash_successResponse

theorem noHash_postMeasurement (db : Db) (now : Nat) (tok : Option Nat)
    (raw : RawMeasurementInput) (newId : Nat) :
    "passwordHash" ∉ ((postMeasurement db now tok raw newId).1).body.keys := by
  unfold postMeasurement
  repeat' split
  all_goals first
    | exact noHash_unauthorized
    | exact noHash_notFound _
    | exact noHash_measurementBody _
    | (apply noHash_badRequestDetails
       apply parseMeasurementInput_noHash raw
       assumption)

theorem noHash_getMeasurements (db : Db) (now : Nat) (tok : Option Nat)
    (rawQuery : Option Nat) :
    "passwordHash" ∉ ((getMeasurements db now tok rawQuery).1).body.keys := by
  unfold getMeasurements
  repeat' split
  all_goals first
    | exact noHash_unauthorized
    | exact noHash_notFound _
    | exact noHash_badRequest _
    | exact noHash_keysOfArr_map toMeasurementResponse noHash_measurementBody _

theorem noHash_deleteMeasurement (db : Db) (now : Nat) (tok : Option Nat)
    (rawParams : Option Nat) :
    "passwordHash" ∉ ((deleteMeasurement db now tok rawParams).1).body.keys := by
  unfold deleteMeasurement
  repeat' (first | split | dsimp only)
  all_goals first
    | exact noHash_unauthorized
    | exact noHash_notFound _
    | exact noHash_badRequest _
    | exact noHash_successResponse

theorem noHash_postReminder (db : Db) (now : Nat) (tok : Option Nat)
    (raw : RawCreateReminder) (newId : Nat) :
    "passwordHash" ∉ ((postReminder db now tok raw newId).1).body.keys := by
  unfold postReminder
  repeat' split
  all_goals first
    | exact noHash_unauthorized
    | exact noHash_notFound _
    | exact noHash_reminderBody _
    | (apply noHash_badRequestDetails
       apply parseCreateReminder_noHash raw
       assumption)

theorem noHash_getReminders (db : Db) (now : Nat) (tok : Option Nat)
    (rawQuery : Option Nat) :
    "passwordHash" ∉ ((getReminders db now tok rawQuery).1).body.keys := by
  unfold getReminders
  repeat' split
  all_goals first
    | exact noHash_unauthorized
    | exact noHash_notFound _
    | exact noHash_badRequest _
    | exact noHash_keysOfArr_map toReminderResponse noHash_reminderBody _

theorem noHash_patchReminder (db : Db) (now : Nat) (tok : Option Nat)
    (rawParams : Option Nat) (rawBody : RawUpdateReminderBody) :
    "passwordHash" ∉ ((patchReminder db now tok rawParams rawBody).1).body.keys := by
  unfold patchReminder
  repeat' (first | split | dsimp only)
  all_goals first
    | exact noHash_unauthorized
    | exact noHash_notFound _
    | exact noHash_badRequest _
    | exact noHash_reminderBody _
    | (apply noHash_badRequestDetails
       apply parseUpdateReminder_noHash rawBody
       assumption)

theorem noHash_deleteReminder (db : Db) (now : Nat) (tok : Option Nat)
    (rawParams : Option Nat) :
    "passwordHash" ∉ ((deleteReminder db now tok rawParams).1).body.keys := by
  unfold deleteReminder
  repeat' (first | split | dsimp only)
  all_goals first
    | exact noHash_unauthorized
    | exact noHash_notFound _
    | exact noHash_badRequest _
    | exact noHash_successResponse

theorem noHash_postAnimal (db : Db) (now : Nat) (tok : Option Nat)
    (raw : RawCreateAnimal) (newId : Nat) :
    "passwordHash" ∉ ((postAnimal db now tok raw newId).1).body.keys := by
  unfold postAnimal
  repeat' (first | split | dsimp only)
  all_goals first
    | exact noHash_unauthorized
    | exact noHash_conflict _
    | exact noHash_animalBody _
    | (apply noHash_badRequestDetails
       apply parseCreateAnimal_noHash raw
       assumption)

theorem noHash_patchAnimal (db : Db) (now : Nat) (tok : Option Nat)
    (rawParams : Option Nat) (rawBody : RawUpdateAnimal) :
    "passwordHash" ∉ ((patchAnimal db now tok rawParams rawBody).1).body.keys := by
  unfold patchAnimal patchAnimalApply
  repeat' (first | split | dsimp only)
  all_goals first
    | exact noHash_unauthorized
    | exact noHash_notFound _
    | exact noHash_badRequest _
    | exact noHash_conflict _
    | exact noHash_animalBody _
    | (apply noHash_badRequestDetails
       apply parseUpdateAnimal_noHash rawBody
       assumption)

theorem noHash_deleteAnimal (db : Db) (now : Nat) (tok : Option Nat)
    (rawParams : Option Nat) :
    "passwordHash" ∉ ((deleteAnimal db now tok rawParams).1).body.keys := by
  unfold deleteAnimal
  repeat' (first | split | dsimp only)
  all_goals first
    | exact noHash_unauthorized
    | exact noHash_notFound _
    | exact noHash_badRequest _
    | exact noHash_successResponse

theorem noHash_registerUser (db : Db) (now : Nat) (raw : RawCredentials)
    (passwordHash : String) (newUserId token : Nat) :
    "passwordHash" ∉ ((registerUser db now raw passwordHash newUserId token).1).body.keys := by
  unfold registerUser createSession
  repeat' (first | split | dsimp only)
  all_goals first
    | exact noHash_conflict _
    | exact noHash_authBody _ _
    | (apply noHash_badRequestDetails
       apply parseCredentials_noHash raw
       assumption)

theorem noHash_loginUser (db : Db) (now : Nat) (raw : RawCredentials)
    (verify : String → String → Bool) (token : Nat) :
    "passwordHash" ∉ ((loginUser db now raw verify token).1).body.keys := by
  unfold loginUser createSession
  repeat' (first | split | dsimp only)
  all_goals first
    | exact noHash_errObj _
    | exact noHash_authBody _ _
    | (apply noHash_badRequestDetails
       apply parseCredentials_noHash raw
       assumption)

theorem noHash_getMe (db : Db) (now : Nat) (tok : Option Nat) :
    "passwordHash" ∉ ((getMe db now tok).1).body.keys := by
  unfold getMe
  repeat' split
  all_goals first
    | exact noHash_errObj _
    | exact noHash_authBody _ _

theorem noHash_logoutUser (db : Db) (tok : Option Nat) :
    "passwordHash" ∉ ((logoutUser db tok).1).body.keys := by
  unfold logoutUser
  repeat' split
  all_goals exact noHash_successResponse

/-- C9: no response body of any endpoint on any input ever contains a
`passwordHash` key (in particular no successful one), and `toPublicUser`
removes exactly `passwordHash`, keeping every other user field; its JSON
projection exposes exactly the public fields. -/
theorem responsesNeverLeakPasswordHash :
    (∀ now op db, "passwordHash" ∉ ((applyOp now op db).1).body.keys) ∧
      (∀ u : User,
        toPublicUser u = ⟨u.id, u.username, u.role, u.isActive, u.createdAt, u.updatedAt⟩) ∧
      (∀ u : User,
        (publicUserJson (toPublicUser u)).keys =
          ["id", "username", "role", "isActive", "createdAt", "updatedAt"]) := by
  refine ⟨?_, fun u => rfl, fun u => keys_publicUserJson (toPublicUser u)⟩
  intro now op db
  cases op with
  | register raw passwordHash newUserId token => exact noHash_registerUser db now raw passwordHash newUserId token
  | login raw verify token => exact noHash_loginUser db now raw verify token
  | me token => exact noHash_getMe db now token
  | logout token => exact noHash_logoutUser db token
  | animalCreate token raw newId => exact noHash_postAnimal db now token raw newId
  | animalPatch token rawParams rawBody => exact noHash_patchAnimal db now token rawParams rawBody
  | animalDelete token rawParams => exact noHash_deleteAnimal db now token rawParams
  | feedingCreate token raw newId => exact noHash_postFeeding db now token raw newId
  | feedingList token rawQuery => exact noHash_getFeedings db now token rawQuery
  | feedingDelete token rawParams => exact noHash_deleteFeeding db now token rawParams
  | measurementCreate token raw newId => exact noHash_postMeasurement db now token raw newId
  | measurementList token rawQuery => exact noHash_getMeasurements db now token rawQuery
  | measurementDelete token rawParams => exact noHash_deleteMeasurement db now token rawParams
  | reminderCreate token raw newId => exact noHash_postReminder db now token raw newId
  | reminderList token rawQuery => exact noHash_getReminders db now token rawQuery
  | reminderPatch token rawParams rawBody => exact noHash_patchReminder db now token rawParams rawBody
  | reminderDelete token rawParams => exact noHash_deleteReminder db now token rawParams
  | userDrop uid => exact noHash_successResponse
  | animalDrop aid => exact noHash_successResponse

/-! ### Claim C5: duplicate animal names are rejected with 409 -/

/-- C5: with an authenticated user, (a) a `POST /animals` whose trimmed name
matches an animal that user already owns answers 409 and changes nothing,
(b) a `PATCH /animals/:id` renaming to the name of a different animal of the
same user answers 409 and changes nothing, and (c) when the authenticated
user owns no animal of that name the POST succeeds regardless of other
users' animals, so uniqueness is scoped per (user, name). -/
theorem duplicateAnimalNames409 (db : Db) (now : Nat) (tok : Option Nat)
    (ctx : AuthenticatedContext)
    (hauth : requireAuth db now tok = (some ctx, db)) :
    (∀ raw p newId a, parseCreateAnimal raw = .ok p →
      db.animals.find?
          (fun a2 => a2.userId == ctx.user.id && a2.name == jsTrim p.name) = some a →
      postAnimal db now tok raw newId =
        (conflict "An animal with this name already exists", db)) ∧
    (∀ id rawBody updates n d, parseUpdateAnimal rawBody = .ok updates →
      updates.isEmpty = false →
      updates.name = some n →
      db.animals.find?
          (fun a2 => a2.userId == ctx.user.id && a2.name == jsTrim n) = some d →
      d.id ≠ id →
      patchAnimal db now tok (some id) rawBody =
        (conflict "An animal with this name already exists", db)) ∧
    (∀ raw p newId, parseCreateAnimal raw = .ok p →
      db.animals.find?
          (fun a2 => a2.userId == ctx.user.id && a2.name == jsTrim p.name) = none →
      postAnimal db now tok raw newId =
        (⟨201, toAnimalResponse (mkAnimal ctx.user.id p newId now)⟩,
          { db with animals := db.animals ++ [mkAnimal ctx.user.id p newId now] })) := by
  refine ⟨?_, ?_, ?_⟩
  · intro raw p newId a hparse hdup
    unfold postAnimal
    simp only [hauth, hparse, hdup]
  · intro id rawBody updates n d hparse hne hname hdup hid
    unfold patchAnimal
    simp only [hauth, hparse, hne, hname, hdup]
    have : (d.id != id) = true := by simp [hid]
    simp only [this]
    simp
  · intro raw p newId hparse hdup
    unfold postAnimal
    simp only [hauth, hparse, hdup]

/-- Alice's animal "rex" for the concrete scenarios. -/
def rexAnimal : Animal :=
  { id := 10, userId := 1, name := "rex", species := none, description := none
    birthDate := none, sex := none, createdAt := 0, updatedAt := 0 }

/-- Alice's animal "lizzy" for the concrete scenarios. -/
def lizzyAnimal : Animal :=
  { id := 11, userId := 1, name := "lizzy", species := none, description := none
    birthDate := none, sex := none, createdAt := 0, updatedAt := 0 }

/-- Two users with live sessions; alice owns "rex" and "lizzy". -/
def twoUserDb : Db :=
  { users := [aliceUser, bobUser]
    sessions := [⟨100, 1, 1000, 0⟩, ⟨200, 2, 1000, 0⟩]
    animals := [rexAnimal, lizzyAnimal]
    feedings := []
    measurements := []
    reminders := [] }

/-- The alice context behind token 100 in `twoUserDb`. -/
def aliceCtx : AuthenticatedContext := ⟨⟨100, 1, 1000, 0⟩, aliceUser⟩

/-- The bob context behind token 200 in `twoUserDb`. -/
def bobCtx : AuthenticatedContext := ⟨⟨200, 2, 1000, 0⟩, bobUser⟩

/-- The raw `POST /animals` body naming "rex". -/
def rexRaw : RawCreateAnimal := ⟨some "rex", none, none, none, none⟩

/-- The parsed `POST /animals` body naming "rex". -/
def rexInput : CreateAnimalInput := ⟨"rex", none, none, none, none⟩

/-- The raw `PATCH /animals/:id` body renaming to "rex". -/
def rexUpdateRaw : RawUpdateAnimal := ⟨some "rex", none, none, none, none⟩

/-- The parsed `PATCH /animals/:id` body renaming to "rex". -/
def rexUpdate : UpdateAnimalInput := ⟨some "rex", none, none, none, none⟩

/-- Witness for C5: alice re-creating "rex" gets 409, renaming "lizzy" to
"rex" gets 409, and bob creating his own "rex" succeeds with 201. -/
theorem duplicateAnimalNames409_witness :
    (requireAuth twoUserDb 10 (some 100) = (some aliceCtx, twoUserDb) ∧
      parseCreateAnimal rexRaw = .ok rexInput ∧
      twoUserDb.animals.find?
          (fun a2 => a2.userId == aliceCtx.user.id && a2.name == jsTrim rexInput.name) =
        some rexAnimal ∧
      parseUpdateAnimal rexUpdateRaw = .ok rexUpdate ∧
      rexUpdate.isEmpty = false ∧
      rexUpdate.name = some "rex" ∧
      rexAnimal.id ≠ 11 ∧
      requireAuth twoUserDb 10 (some 200) = (some bobCtx, twoUserDb) ∧
      twoUserDb.animals.find?
          (fun a2 => a2.userId == bobCtx.user.id && a2.name == jsTrim rexInput.name) =
        none) ∧
    postAnimal twoUserDb 10 (some 100) rexRaw 50 =
      (conflict "An animal with this name already exists", twoUserDb) ∧
    patchAnimal twoUserDb 10 (some 100) (some 11) rexUpdateRaw =
      (conflict "An animal with this name already exists", twoUserDb) ∧
    postAnimal twoUserDb 10 (some 200) rexRaw 50 =
      (⟨201, toAnimalResponse (mkAnimal bobCtx.user.id rexInput 50 10)⟩,
        { twoUserDb with
          animals := twoUserDb.animals ++ [mkAnimal bobCtx.user.id rexInput 50 10] }) :=
  ⟨⟨by decide, rfl, by decide, rfl, by decide, rfl, by decide, by decide, by decide⟩,
    (duplicateAnimalNames409 twoUserDb 10 (some 100) aliceCtx (by decide)).1
      rexRaw rexInput 50 rexAnimal rfl (by decide),
    (duplicateAnimalNames409 twoUserDb 10 (some 100) aliceCtx (by decide)).2.1
      11 rexUpdateRaw rexUpdate "rex" rexAnimal rfl (by decide) rfl (by decide) (by decide),
    (duplicateAnimalNames409 twoUserDb 10 (some 200) bobCtx (by decide)).2.2
      rexRaw rexInput 50 rfl (by decide)⟩

/-! ### Claim C6: schema violations answer 400 with field-level detail -/

theorem keys_detailsJson (e : ZodError) : (detailsJson e).keys = e.map (·.1) := by
  simp [detailsJson, Json.keys, keysOfObj_strMap]

/-- C6 counterexample: a request whose path parameter (respectively query
string) fails its zod schema is answered with 400 whose body carries only an
`error` message and no `details` property at all, refuting the claim that
every failing body, query string, or path parameter yields the flattened zod
error in a `details` property. -/
theorem validationErrors400_counterexample :
    (patchReminder twoUserDb 10 (some 100) none
      ⟨⟨none, none, none, none, none, none⟩, none⟩).1.status = 400 ∧
      "details" ∉ (patchReminder twoUserDb 10 (some 100) none
        ⟨⟨none, none, none, none, none, none⟩, none⟩).1.body.keys ∧
      (getMeasurements twoUserDb 10 (some 100) none).1.status = 400 ∧
      "details" ∉ (getMeasurements twoUserDb 10 (some 100) none).1.body.keys := by
  refine ⟨?_, ?_, ?_, ?_⟩ <;> decide

/-- C6 (amended): with an authenticated user, a request body failing its zod
schema answers 400 with the flattened issues under `details` (whose keys are
exactly the failing field paths) and writes nothing, on every route with a
body schema; a failing query string, a failing path parameter, and a
`PATCH /reminders/:id` body with no updatable fields also answer 400 and
write nothing, but with a bare `error` message and no `details` property. -/
theorem validationErrors400 (db : Db) (now : Nat) (tok : Option Nat)
    (ctx : AuthenticatedContext)
    (hauth : requireAuth db now tok = (some ctx, db)) :
    (∀ m : String, ∀ e : ZodError, (badRequestDetails m e).status = 400 ∧
      (badRequestDetails m e).body.keys = "error" :: "details" :: e.map (·.1)) ∧
    (∀ m : String, (badRequest m).status = 400 ∧ (badRequest m).body.keys = ["error"]) ∧
    (∀ raw newId e, parseFeedingInput raw = .error e →
      postFeeding db now tok raw newId =
        (badRequestDetails "Invalid feeding payload" e, db)) ∧
    (∀ raw newId e, parseMeasurementInput raw = .error e →
      postMeasurement db now tok raw newId =
        (badRequestDetails "Invalid measurement payload" e, db)) ∧
    (∀ raw newId e, parseCreateReminder raw = .error e →
      postReminder db now tok raw newId =
        (badRequestDetails "Invalid reminder payload" e, db)) ∧
    (∀ id rawBody e, parseUpdateReminder rawBody = .error e →
      patchReminder db now tok (some id) rawBody =
        (badRequestDetails "Invalid reminder update payload" e, db)) ∧
    (∀ raw newId e, parseCreateAnimal raw = .error e →
      postAnimal db now tok raw newId =
        (badRequestDetails "Invalid animal payload" e, db)) ∧
    (∀ id rawBody e, parseUpdateAnimal rawBody = .error e →
      patchAnimal db now tok (some id) rawBody =
        (badRequestDetails "Invalid animal update payload" e, db)) ∧
    (∀ db2 now2 raw passwordHash newUserId token e, parseCredentials raw = .error e →
      registerUser db2 now2 raw passwordHash newUserId token =
        (badRequestDetails "Invalid credentials payload" e, db2)) ∧
    (∀ db2 now2 raw verify token e, parseCredentials raw = .error e →
      loginUser db2 now2 raw verify token =
        (badRequestDetails "Invalid credentials payload" e, db2)) ∧
    getFeedings db now tok none = (badRequest "Invalid feedings query parameters", db) ∧
    getMeasurements db now tok none =
      (badRequest "Invalid measurements query parameters", db) ∧
    getReminders db now tok none = (badRequest "Invalid reminders query parameters", db) ∧
    deleteFeeding db now tok none = (badRequest "Invalid feeding identifier", db) ∧
    deleteMeasurement db now tok none = (badRequest "Invalid measurement identifier", db) ∧
    deleteReminder db now tok none = (badRequest "Invalid reminder identifier", db) ∧
    deleteAnimal db now tok none = (badRequest "Invalid animal identifier", db) ∧
    (∀ rawBody, patchReminder db now tok none rawBody =
      (badRequest "Invalid reminder identifier", db)) ∧
    (∀ rawBody, patchAnimal db now tok none rawBody =
      (badRequest "Invalid animal identifier", db)) ∧
    (∀ id rawBody updates, parseUpdateReminder rawBody = .ok updates →
      updates.keyCount = 0 →
      patchReminder db now tok (some id) rawBody =
        (badRequest "No fields provided to update", db)) := by
  refine ⟨?_, ?_, ?_, ?_, ?_, ?_, ?_, ?_, ?_, ?_, ?_, ?_, ?_, ?_, ?_, ?_, ?_, ?_, ?_, ?_⟩
  · intro m e
    refine ⟨rfl, ?_⟩
    simp [badRequestDetails, detailsJson, Json.keys, Json.keysOfObj, keysOfObj_strMap]
  · intro m
    exact ⟨rfl, by simp [badRequest, Json.keys, Json.keysOfObj]⟩
  · intro raw newId e hparse
    unfold postFeeding
    simp only [hauth, hparse]
  · intro raw newId e hparse
    unfold postMeasurement
    simp only [hauth, hparse]
  · intro raw newId e hparse
    unfold postReminder
    simp only [hauth, hparse]
  · intro id rawBody e hparse
    unfold patchReminder
    simp only [hauth, hparse]
  · intro raw newId e hparse
    unfold postAnimal
    simp only [hauth, hparse]
  · intro id rawBody e hparse
    unfold patchAnimal
    simp only [hauth, hparse]
  · intro db2 now2 raw passwordHash newUserId token e hparse
    unfold registerUser
    simp only [hparse]
  · intro db2 now2 raw verify token e hparse
    unfold loginUser
    simp only [hparse]
  · unfold getFeedings
    simp only [hauth]
  · unfold getMeasurements
    simp only [hauth]
  · unfold getReminders
    simp only [hauth]
  · unfold deleteFeeding
    simp only [hauth]
  · unfold deleteMeasurement
    simp only [hauth]
  · unfold deleteReminder
    simp only [hauth]
  · unfold deleteAnimal
    simp only [hauth]
  · intro rawBody
    unfold patchReminder
    simp only [hauth]
  · intro rawBody
    unfold patchAnimal
    simp only [hauth]
  · intro id rawBody updates hparse hkc
    unfold patchReminder
    simp only [hauth, hparse, hkc]
    rfl

/-- A measurement body whose non-note metric type lacks a value. -/
def noValueMeasurementRaw : RawMeasurementInput :=
  ⟨some 10, some "weight", none, none, none, none⟩

/-- A reminder update body whose title trims to the empty string. -/
def blankTitleReminderRaw : RawUpdateReminderBody :=
  ⟨⟨some " ", none, none, none, none, none⟩, none⟩

/-- A reminder update body with no field at all. -/
def emptyReminderRaw : RawUpdateReminderBody :=
  ⟨⟨none, none, none, none, none, none⟩, none⟩

/-- Credentials failing both the username and password length rules. -/
def badCredsRaw : RawCredentials := ⟨some "ab", some "short"⟩

/-- Witness for C6: a value-less weight measurement and a blank reminder
title get 400 with `details` naming the field; a bad credentials body gets
400 with `details`; a missing query string, a bad path id and an empty
reminder update get bare 400s; nothing is written. -/
theorem validationErrors400_witness :
    (requireAuth twoUserDb 10 (some 100) = (some aliceCtx, twoUserDb) ∧
      parseMeasurementInput noValueMeasurementRaw =
        .error [("value", "Value is required for this measurement type")] ∧
      parseUpdateReminder blankTitleReminderRaw =
        .error [("title", "String must contain at least 1 character(s)")] ∧
      parseCredentials badCredsRaw =
        .error [("username", "Username must be at least 3 characters long"),
          ("password", "Password must be at least 8 characters long")] ∧
      parseUpdateReminder emptyReminderRaw =
        .ok ⟨none, none, none, none, none, none, none⟩ ∧
      (UpdateReminderInput.mk none none none none none none none).keyCount = 0) ∧
    postMeasurement twoUserDb 10 (some 100) noValueMeasurementRaw 50 =
      (badRequestDetails "Invalid measurement payload"
        [("value", "Value is required for this measurement type")], twoUserDb) ∧
    patchReminder twoUserDb 10 (some 100) (some 30) blankTitleReminderRaw =
      (badRequestDetails "Invalid reminder update payload"
        [("title", "String must contain at least 1 character(s)")], twoUserDb) ∧
    registerUser twoUserDb 10 badCredsRaw "h" 7 7 =
      (badRequestDetails "Invalid credentials payload"
        [("username", "Username must be at least 3 characters long"),
          ("password", "Password must be at least 8 characters long")], twoUserDb) ∧
    getMeasurements twoUserDb 10 (some 100) none =
      (badRequest "Invalid measurements query parameters", twoUserDb) ∧
    patchReminder twoUserDb 10 (some 100) none emptyReminderRaw =
      (badRequest "Invalid reminder identifier", twoUserDb) ∧
    patchReminder twoUserDb 10 (some 100) (some 30) emptyReminderRaw =
      (badRequest "No fields provided to update", twoUserDb) := by
  have T := validationErrors400 twoUserDb 10 (some 100) aliceCtx (by decide)
  exact ⟨⟨by decide, rfl, rfl, rfl, rfl, by decide⟩,
    T.2.2.2.1 noValueMeasurementRaw 50 _ rfl,
    T.2.2.2.2.2.1 30 blankTitleReminderRaw _ rfl,
    T.2.2.2.2.2.2.2.2.1 twoUserDb 10 badCredsRaw "h" 7 7 _ rfl,
    T.2.2.2.2.2.2.2.2.2.2.2.1,
    T.2.2.2.2.2.2.2.2.2.2.2.2.2.2.2.2.2.1 emptyReminderRaw,
    T.2.2.2.2.2.2.2.2.2.2.2.2.2.2.2.2.2.2.2
      30 emptyReminderRaw ⟨none, none, none, none, none, none, none⟩ rfl (by decide)⟩

/-! ### Claim C3: missing rows and foreign ownership answer 404 -/

theorem refsAnimal_nil (o : Option Nat) : refsAnimal o [] = false := by
  cases o <;> simp [refsAnimal]

theorem filter_not_pred_of_find?_none {α : Type} (l : List α) (p : α → Bool)
    (h : l.find? p = none) : l.filter (fun x => !p x) = l :=
  List.filter_eq_self.mpr (fun a ha => by simp [List.find?_eq_none.mp h a ha])

theorem map_ite_of_find?_none {α : Type} (l : List α) (p : α → Bool)
    (g : α → α) (h : l.find? p = none) :
    l.map (fun x => if p x then g x else x) = l := by
  have hsame : ∀ a ∈ l, (if p a then g a else a) = (fun x => x) a := by
    intro a ha
    simp [List.find?_eq_none.mp h a ha]
  rw [List.map_congr_left hsame]
  exact List.map_id' l

theorem cascadeAnimalDelete_noop (db : Db) (pred : Animal → Bool)
    (h : db.animals.find? pred = none) : cascadeAnimalDelete db pred = db := by
  have hnil : db.animals.filter pred = [] :=
    List.filter_eq_nil_iff.mpr (fun a ha => by simp [List.find?_eq_none.mp h a ha])
  have ha : db.animals.filter (fun a => !pred a) = db.animals :=
    filter_not_pred_of_find?_none _ _ h
  simp only [cascadeAnimalDelete, hnil, ha, List.map_nil, refsAnimal_nil,
    Bool.not_false, List.filter_true]

/-- C3 counterexample: `PATCH /animals/:id` runs the duplicate-name check
before the existence check, so addressing a nonexistent animal id with a body
whose name collides with an owned animal answers 409, not 404. -/
theorem notFound404_counterexample :
    twoUserDb.animals.find? (fun a => a.id == 99 && a.userId == 1) = none ∧
      (patchAnimal twoUserDb 10 (some 100) (some 99) rexUpdateRaw).1.status = 409 ∧
      ¬ (patchAnimal twoUserDb 10 (some 100) (some 99) rexUpdateRaw).1.status = 404 := by
  refine ⟨by decide, ?_, ?_⟩ <;> decide

/-- C3 (amended): with an authenticated user, every id-addressed mutation
whose target row does not belong to that user answers 404 with the stored
data unchanged, and every request referencing an `animalId` the user does not
own answers 404 unchanged — except that `PATCH /animals/:id` answers 409
(still without changing anything, as `duplicateAnimalNames409` shows) when
the body renames to a name another owned animal already uses, because the
duplicate check runs before the existence check; its 404 holds whenever the
body name (if any) has no such conflict. -/
theorem notFoundAndOwnership404 (db : Db) (now : Nat) (tok : Option Nat)
    (ctx : AuthenticatedContext)
    (hauth : requireAuth db now tok = (some ctx, db)) :
    (∀ id, db.measurements.find? (fun m => m.id == id && m.userId == ctx.user.id) = none →
      deleteMeasurement db now tok (some id) = (notFound "Measurement not found", db)) ∧
    (∀ id, db.feedings.find? (fun f => f.id == id && f.userId == ctx.user.id) = none →
      deleteFeeding db now tok (some id) = (notFound "Feeding record not found", db)) ∧
    (∀ id, db.reminders.find? (fun r => r.id == id && r.userId == ctx.user.id) = none →
      deleteReminder db now tok (some id) = (notFound "Reminder not found", db)) ∧
    (∀ id, db.animals.find? (fun a => a.id == id && a.userId == ctx.user.id) = none →
      deleteAnimal db now tok (some id) = (notFound "Animal not found", db)) ∧
    (∀ id rawBody updates aid, parseUpdateReminder rawBody = .ok updates →
      updates.keyCount ≠ 0 → updates.animalId = some aid →
      ensureAnimalOwnership db ctx.user.id aid = none →
      patchReminder db now tok (some id) rawBody = (notFound "Animal not found", db)) ∧
    (∀ id rawBody updates, parseUpdateReminder rawBody = .ok updates →
      updates.keyCount ≠ 0 →
      (match updates.animalId with
        | none => true
        | some aid => (ensureAnimalOwnership db ctx.user.id aid).isSome) = true →
      db.reminders.find? (fun r => r.id == id && r.userId == ctx.user.id) = none →
      patchReminder db now tok (some id) rawBody = (notFound "Reminder not found", db)) ∧
    (∀ id rawBody updates, parseUpdateAnimal rawBody = .ok updates →
      updates.isEmpty = false →
      (match updates.name with
        | none => (none : Option Animal)
        | some n =>
          db.animals.find? (fun a => a.userId == ctx.user.id && a.name == jsTrim n)) = none →
      db.animals.find? (fun a => a.id == id && a.userId == ctx.user.id) = none →
      patchAnimal db now tok (some id) rawBody = (notFound "Animal not found", db)) ∧
    (∀ raw p newId, parseFeedingInput raw = .ok p →
      ensureAnimalOwnership db ctx.user.id p.animalId = none →
      postFeeding db now tok raw newId = (notFound "Animal not found", db)) ∧
    (∀ aid, ensureAnimalOwnership db ctx.user.id aid = none →
      getFeedings db now tok (some aid) = (notFound "Animal not found", db)) ∧
    (∀ raw p newId, parseMeasurementInput raw = .ok p →
      ensureAnimalOwnership db ctx.user.id p.animalId = none →
      postMeasurement db now tok raw newId = (notFound "Animal not found", db)) ∧
    (∀ aid, ensureAnimalOwnership db ctx.user.id aid = none →
      getMeasurements db now tok (some aid) = (notFound "Animal not found", db)) ∧
    (∀ raw p newId, parseCreateReminder raw = .ok p →
      ensureAnimalOwnership db ctx.user.id p.animalId = none →
      postReminder db now tok raw newId = (notFound "Animal not found", db)) ∧
    (∀ aid, ensureAnimalOwnership db ctx.user.id aid = none →
      getReminders db now tok (some aid) = (notFound "Animal not found", db)) := by
  refine ⟨?_, ?_, ?_, ?_, ?_, ?_, ?_, ?_, ?_, ?_, ?_, ?_, ?_⟩
  · intro id hfind
    unfold deleteMeasurement
    simp only [hauth, hfind]
    rw [filter_not_pred_of_find?_none _ _ hfind]
  · intro id hfind
    unfold deleteFeeding
    simp only [hauth, hfind]
    rw [filter_not_pred_of_find?_none _ _ hfind]
  · intro id hfind
    unfold deleteReminder
    simp only [hauth, hfind]
    rw [filter_not_pred_of_find?_none _ _ hfind]
  · intro id hfind
    unfold deleteAnimal
    simp only [hauth, hfind]
    rw [cascadeAnimalDelete_noop db _ hfind]
  · intro id rawBody updates aid hparse hkc haid hown
    unfold patchReminder
    simp only [hauth, hparse, haid, hown]
    have : updates.keyCount = 0 ↔ False := by simp [hkc]
    simp [this, Option.isSome]
  · intro id rawBody updates hparse hkc hown hfind
    unfold patchReminder
    simp only [hauth, hparse, hown, hfind]
    have : updates.keyCount = 0 ↔ False := by simp [hkc]
    simp only [this, if_false]
    rw [map_ite_of_find?_none _ _ _ hfind]
    simp
  · intro id rawBody updates hparse hne hdup hfind
    unfold patchAnimal
    simp only [hauth, hparse, hne, hdup]
    unfold patchAnimalApply
    simp only [hfind]
    rw [map_ite_of_find?_none _ _ _ hfind]
    simp
  · intro raw p newId hparse hown
    unfold postFeeding
    simp only [hauth, hparse, hown]
  · intro aid hown
    unfold getFeedings
    simp only [hauth, hown]
  · intro raw p newId hparse hown
    unfold postMeasurement
    simp only [hauth, hparse, hown]
  · intro aid hown
    unfold getMeasurements
    simp only [hauth, hown]
  · intro raw p newId hparse hown
    unfold postReminder
    simp only [hauth, hparse, hown]
  · intro aid hown
    unfold getReminders
    simp only [hauth, hown]

/-- A reminder update retargeting an unowned animal 77. -/
def retargetReminderRaw : RawUpdateReminderBody :=
  ⟨⟨none, none, none, none, none, none⟩, some 77⟩

/-- A reminder update renaming the title. -/
def retitleReminderRaw : RawUpdateReminderBody :=
  ⟨⟨some "water", none, none, none, none, none⟩, none⟩

/-- An animal update to a fresh, non-conflicting name. -/
def renameAnimalRaw : RawUpdateAnimal :=
  ⟨some "newname", none, none, none, none⟩

/-- A feeding body referencing the unowned animal 77. -/
def feedingRaw77 : RawFeedingInput :=
  ⟨some 77, none, none, some "mice", some "1", none, none⟩

/-- A measurement body referencing the unowned animal 77. -/
def measurementRaw77 : RawMeasurementInput :=
  ⟨some 77, some "weight", some 5, none, none, none⟩

/-- A reminder body referencing the unowned animal 77. -/
def reminderRaw77 : RawCreateReminder :=
  ⟨some 77, some "feed", none, none, none, none⟩

/-- Witness for C3: against `twoUserDb` as alice, missing rows and the
unowned animal id 77 each answer 404 and leave the database unchanged. -/
theorem notFoundAndOwnership404_witness :
    (requireAuth twoUserDb 10 (some 100) = (some aliceCtx, twoUserDb) ∧
      twoUserDb.measurements.find? (fun m => m.id == 999 && m.userId == aliceCtx.user.id) = none ∧
      twoUserDb.animals.find? (fun a => a.id == 99 && a.userId == aliceCtx.user.id) = none ∧
      ensureAnimalOwnership twoUserDb aliceCtx.user.id 77 = none) ∧
    deleteMeasurement twoUserDb 10 (some 100) (some 999) =
      (notFound "Measurement not found", twoUserDb) ∧
    deleteFeeding twoUserDb 10 (some 100) (some 999) =
      (notFound "Feeding record not found", twoUserDb) ∧
    deleteReminder twoUserDb 10 (some 100) (some 999) =
      (notFound "Reminder not found", twoUserDb) ∧
    deleteAnimal twoUserDb 10 (some 100) (some 99) =
      (notFound "Animal not found", twoUserDb) ∧
    patchReminder twoUserDb 10 (some 100) (some 40) retargetReminderRaw =
      (notFound "Animal not found", twoUserDb) ∧
    patchReminder twoUserDb 10 (some 100) (some 40) retitleReminderRaw =
      (notFound "Reminder not found", twoUserDb) ∧
    patchAnimal twoUserDb 10 (some 100) (some 99) renameAnimalRaw =
      (notFound "Animal not found", twoUserDb) ∧
    postFeeding twoUserDb 10 (some 100) feedingRaw77 50 =
      (notFound "Animal not found", twoUserDb) ∧
    getFeedings twoUserDb 10 (some 100) (some 77) =
      (notFound "Animal not found", twoUserDb) ∧
    postMeasurement twoUserDb 10 (some 100) measurementRaw77 50 =
      (notFound "Animal not found", twoUserDb) ∧
    getMeasurements twoUserDb 10 (some 100) (some 77) =
      (notFound "Animal not found", twoUserDb) ∧
    postReminder twoUserDb 10 (some 100) reminderRaw77 50 =
      (notFound "Animal not found", twoUserDb) ∧
    getReminders twoUserDb 10 (some 100) (some 77) =
      (notFound "Animal not found", twoUserDb) :=
  ⟨⟨by decide, by decide, by decide, by decide⟩,
    (notFoundAndOwnership404 twoUserDb 10 (some 100) aliceCtx (by decide)).1
      999 (by decide),
    (notFoundAndOwnership404 twoUserDb 10 (some 100) aliceCtx (by decide)).2.1
      999 (by decide),
    (notFoundAndOwnership404 twoUserDb 10 (some 100) aliceCtx (by decide)).2.2.1
      999 (by decide),
    (notFoundAndOwnership404 twoUserDb 10 (some 100) aliceCtx (by decide)).2.2.2.1
      99 (by decide),
    (notFoundAndOwnership404 twoUserDb 10 (some 100) aliceCtx (by decide)).2.2.2.2.1
      40 retargetReminderRaw ⟨none, none, none, none, none, none, some 77⟩ 77
      rfl (by decide) rfl (by decide),
    (notFoundAndOwnership404 twoUserDb 10 (some 100) aliceCtx (by decide)).2.2.2.2.2.1
      40 retitleReminderRaw ⟨some "water", none, none, none, none, none, none⟩
      rfl (by decide) (by decide) (by decide),
    (notFoundAndOwnership404 twoUserDb 10 (some 100) aliceCtx (by decide)).2.2.2.2.2.2.1
      99 renameAnimalRaw ⟨some "newname", none, none, none, none⟩
      rfl (by decide) (by decide) (by decide),
    (notFoundAndOwnership404 twoUserDb 10 (some 100) aliceCtx (by decide)).2.2.2.2.2.2.2.1
      feedingRaw77 ⟨77, none, none, "mice", "1", none, none⟩ 50 rfl (by decide),
    (notFoundAndOwnership404 twoUserDb 10 (some 100) aliceCtx (by decide)).2.2.2.2.2.2.2.2.1
      77 (by decide),
    (notFoundAndOwnership404 twoUserDb 10 (some 100) aliceCtx (by decide)).2.2.2.2.2.2.2.2.2.1
      measurementRaw77 ⟨77, "weight", some 5, none, none, none⟩ 50 rfl (by decide),
    (notFoundAndOwnership404 twoUserDb 10 (some 100) aliceCtx (by decide)).2.2.2.2.2.2.2.2.2.2.1
      77 (by decide),
    (notFoundAndOwnership404 twoUserDb 10 (some 100) aliceCtx (by decide)).2.2.2.2.2.2.2.2.2.2.2.1
      reminderRaw77 ⟨77, "feed", none, none, none, none⟩ 50 rfl (by decide),
    (notFoundAndOwnership404 twoUserDb 10 (some 100) aliceCtx (by decide)).2.2.2.2.2.2.2.2.2.2.2.2
      77 (by decide)⟩

/-! ### Claim C4: cascading deletes and referential integrity -/

/-- Some user row carries this id. -/
def UserRefOk (users : List User) (uid : Nat) : Prop :=
  ∃ u ∈ users, u.id = uid

/-- A present `animal_id` reference points at an existing animal row. -/
def AnimalRefOk (animals : List Animal) (o : Option Nat) : Prop :=
  ∀ a, o = some a → ∃ x ∈ animals, x.id = a

/-- Referential integrity of the whole store: every foreign key references an
existing parent row. -/
structure FkOk (db : Db) : Prop where
  sess : ∀ s ∈ db.sessions, UserRefOk db.users s.userId
  anim : ∀ a ∈ db.animals, UserRefOk db.users a.userId
  feedU : ∀ f ∈ db.feedings, UserRefOk db.users f.userId
  feedA : ∀ f ∈ db.feedings, AnimalRefOk db.animals f.animalId
  measU : ∀ m ∈ db.measurements, UserRefOk db.users m.userId
  measA : ∀ m ∈ db.measurements, AnimalRefOk db.animals m.animalId
  remU : ∀ r ∈ db.reminders, UserRefOk db.users r.userId
  remA : ∀ r ∈ db.reminders, AnimalRefOk db.animals r.animalId

theorem userRefOk_appendRight {users : List User} {uid : Nat} (xs : List User)
    (h : UserRefOk users uid) : UserRefOk (users ++ xs) uid := by
  obtain ⟨u, hu, he⟩ := h
  exact ⟨u, List.mem_append_left xs hu, he⟩

theorem animalRefOk_appendRight {animals : List Animal} {o : Option Nat}
    (xs : List Animal) (h : AnimalRefOk animals o) :
    AnimalRefOk (animals ++ xs) o := by
  intro a ha
  obtain ⟨x, hx, he⟩ := h a ha
  exact ⟨x, List.mem_append_left xs hx, he⟩

theorem AnimalRefOk.none (animals : List Animal) :
    AnimalRefOk animals none := by
  intro a ha
  cases ha

theorem FkOk.gasSnd {db : Db} (now t : Nat) (hdb : FkOk db) :
    FkOk (getActiveSessionByToken db now t).2 := by
  obtain ⟨hu, ha, hf, hm, hr⟩ := getActiveSessionByToken_tables db now t
  have hs := getActiveSessionByToken_sessions_subset db now t
  constructor
  · intro s hsm; rw [hu]; exact hdb.sess s (hs s hsm)
  · intro a ham; rw [hu]; exact hdb.anim a (ha ▸ ham)
  · intro f hfm; rw [hu]; exact hdb.feedU f (hf ▸ hfm)
  · intro f hfm; rw [ha]; exact hdb.feedA f (hf ▸ hfm)
  · intro m hmm; rw [hu]; exact hdb.measU m (hm ▸ hmm)
  · intro m hmm; rw [ha]; exact hdb.measA m (hm ▸ hmm)
  · intro r hrm; rw [hu]; exact hdb.remU r (hr ▸ hrm)
  · intro r hrm; rw [ha]; exact hdb.remA r (hr ▸ hrm)

theorem FkOk.requireAuthSnd {db : Db} (now : Nat) (tok : Option Nat)
    (hdb : FkOk db) : FkOk (requireAuth db now tok).2 := by
  cases tok with
  | none => exact hdb
  | some t => exact FkOk.gasSnd now t hdb

theorem FkOk.filterSessions {db : Db} (p : Session → Bool) (hdb : FkOk db) :
    FkOk { db with sessions := db.sessions.filter p } := by
  constructor
  · intro s hsm; exact hdb.sess s (List.mem_of_mem_filter hsm)
  · exact hdb.anim
  · exact hdb.feedU
  · exact hdb.feedA
  · exact hdb.measU
  · exact hdb.measA
  · exact hdb.remU
  · exact hdb.remA

theorem FkOk.filterFeedings {db : Db} (p : FeedingRecord → Bool) (hdb : FkOk db) :
    FkOk { db with feedings := db.feedings.filter p } := by
  constructor
  · exact hdb.sess
  · exact hdb.anim
  · intro f hfm; exact hdb.feedU f (List.mem_of_mem_filter hfm)
  · intro f hfm; exact hdb.feedA f (List.mem_of_mem_filter hfm)
  · exact hdb.measU
  · exact hdb.measA
  · exact hdb.remU
  · exact hdb.remA

theorem FkOk.filterMeasurements {db : Db} (p : MeasurementLog → Bool)
    (hdb : FkOk db) :
    FkOk { db with measurements := db.measurements.filter p } := by
  constructor
  · exact hdb.sess
  · exact hdb.anim
  · exact hdb.feedU
  · exact hdb.feedA
  · intro m hmm; exact hdb.measU m (List.mem_of_mem_filter hmm)
  · intro m hmm; exact hdb.measA m (List.mem_of_mem_filter hmm)
  · exact hdb.remU
  · exact hdb.remA

theorem FkOk.filterReminders {db : Db} (p : Reminder → Bool) (hdb : FkOk db) :
    FkOk { db with reminders := db.reminders.filter p } := by
  constructor
  · exact hdb.sess
  · exact hdb.anim
  · exact hdb.feedU
  · exact hdb.feedA
  · exact hdb.measU
  · exact hdb.measA
  · intro r hrm; exact hdb.remU r (List.mem_of_mem_filter hrm)
  · intro r hrm; exact hdb.remA r (List.mem_of_mem_filter hrm)

theorem FkOk.insertFeeding {db : Db} (f : FeedingRecord) (hdb : FkOk db)
    (hu : UserRefOk db.users f.userId) (ha : AnimalRefOk db.animals f.animalId) :
    FkOk { db with feedings := db.feedings ++ [f] } := by
  constructor
  · exact hdb.sess
  · exact hdb.anim
  · intro g hg
    rcases List.mem_append.mp hg with h | h
    · exact hdb.feedU g h
    · simp at h; subst h; exact hu
  · intro g hg
    rcases List.mem_append.mp hg with h | h
    · exact hdb.feedA g h
    · simp at h; subst h; exact ha
  · exact hdb.measU
  · exact hdb.measA
  · exact hdb.remU
  · exact hdb.remA

theorem FkOk.insertMeasurement {db : Db} (m : MeasurementLog) (hdb : FkOk db)
    (hu : UserRefOk db.users m.userId) (ha : AnimalRefOk db.animals m.animalId) :
    FkOk { db with measurements := db.measurements ++ [m] } := by
  constructor
  · exact hdb.sess
  · exact hdb.anim
  · exact hdb.feedU
  · exact hdb.feedA
  · intro g hg
    rcases List.mem_append.mp hg with h | h
    · exact hdb.measU g h
    · simp at h; subst h; exact hu
  · intro g hg
    rcases List.mem_append.mp hg with h | h
    · exact hdb.measA g h
    · simp at h; subst h; exact ha
  · exact hdb.remU
  · exact hdb.remA

theorem FkOk.insertReminder {db : Db} (r : Reminder) (hdb : FkOk db)
    (hu : UserRefOk db.users r.userId) (ha : AnimalRefOk db.animals r.animalId) :
    FkOk { db with reminders := db.reminders ++ [r] } := by
  constructor
  · exact hdb.sess
  · exact hdb.anim
  · exact hdb.feedU
  · exact hdb.feedA
  · exact hdb.measU
  · exact hdb.measA
  · intro g hg
    rcases List.mem_append.mp hg with h | h
    · exact hdb.remU g h
    · simp at h; subst h; exact hu
  · intro g hg
    rcases List.mem_append.mp hg with h | h
    · exact hdb.remA g h
    · simp at h; subst h; exact ha

theorem FkOk.insertAnimal {db : Db} (a : Animal) (hdb : FkOk db)
    (hu : UserRefOk db.users a.userId) :
    FkOk { db with animals := db.animals ++ [a] } := by
  constructor
  · exact hdb.sess
  · intro b hb
    rcases List.mem_append.mp hb with h | h
    · exact hdb.anim b h
    · simp at h; subst h; exact hu
  · exact hdb.feedU
  · intro f hf; exact animalRefOk_appendRight [a] (hdb.feedA f hf)
  · exact hdb.measU
  · intro m hm; exact animalRefOk_appendRight [a] (hdb.measA m hm)
  · exact hdb.remU
  · intro r hr; exact animalRefOk_appendRight [a] (hdb.remA r hr)

theorem FkOk.insertSession {db : Db} (s : Session) (hdb : FkOk db)
    (hu : UserRefOk db.users s.userId) :
    FkOk { db with sessions := db.sessions ++ [s] } := by
  constructor
  · intro s2 hs2
    rcases List.mem_append.mp hs2 with h | h
    · exact hdb.sess s2 h
    · simp at h; subst h; exact hu
  · exact hdb.anim
  · exact hdb.feedU
  · exact hdb.feedA
  · exact hdb.measU
  · exact hdb.measA
  · exact hdb.remU
  · exact hdb.remA

theorem FkOk.insertUser {db : Db} (u : User) (hdb : FkOk db) :
    FkOk { db with users := db.users ++ [u] } := by
  constructor
  · intro s hs; exact userRefOk_appendRight [u] (hdb.sess s hs)
  · intro a ha; exact userRefOk_appendRight [u] (hdb.anim a ha)
  · intro f hf; exact userRefOk_appendRight [u] (hdb.feedU f hf)
  · exact hdb.feedA
  · intro m hm; exact userRefOk_appendRight [u] (hdb.measU m hm)
  · exact hdb.measA
  · intro r hr; exact userRefOk_appendRight [u] (hdb.remU r hr)
  · exact hdb.remA

theorem FkOk.mapReminders {db : Db} (g : Reminder → Reminder) (hdb : FkOk db)
    (hgu : ∀ r, (g r).userId = r.userId)
    (hga : ∀ r ∈ db.reminders, AnimalRefOk db.animals (g r).animalId) :
    FkOk { db with reminders := db.reminders.map g } := by
  constructor
  · exact hdb.sess
  · exact hdb.anim
  · exact hdb.feedU
  · exact hdb.feedA
  · exact hdb.measU
  · exact hdb.measA
  · intro r2 hr2
    obtain ⟨r, hr, he⟩ := List.mem_map.mp hr2
    rw [← he, hgu r]
    exact hdb.remU r hr
  · intro r2 hr2
    obtain ⟨r, hr, he⟩ := List.mem_map.mp hr2
    rw [← he]
    exact hga r hr

theorem FkOk.mapAnimals {db : Db} (g : Animal → Animal) (hdb : FkOk db)
    (hgu : ∀ a, (g a).userId = a.userId) (hgi : ∀ a, (g a).id = a.id) :
    FkOk { db with animals := db.animals.map g } := by
  have href : ∀ (o : Option Nat), AnimalRefOk db.animals o →
      AnimalRefOk (db.animals.map g) o := by
    intro o h a ha
    obtain ⟨x, hx, he⟩ := h a ha
    exact ⟨g x, List.mem_map_of_mem g hx, (hgi x).trans he⟩
  constructor
  · exact hdb.sess
  · intro a2 ha2
    obtain ⟨a, ha, he⟩ := List.mem_map.mp ha2
    rw [← he, hgu a]
    exact hdb.anim a ha
  · exact hdb.feedU
  · intro f hf; exact href _ (hdb.feedA f hf)
  · exact hdb.measU
  · intro m hm; exact href _ (hdb.measA m hm)
  · exact hdb.remU
  · intro r hr; exact href _ (hdb.remA r hr)

theorem FkOk.cascadePreserves {db : Db} (pred : Animal → Bool) (hdb : FkOk db) :
    FkOk (cascadeAnimalDelete db pred) := by
  have href : ∀ (o : Option Nat), AnimalRefOk db.animals o →
      refsAnimal o ((db.animals.filter pred).map (·.id)) = false →
      AnimalRefOk (db.animals.filter (fun a => !pred a)) o := by
    intro o h hrf a ha
    obtain ⟨x, hx, he⟩ := h a ha
    subst ha
    refine ⟨x, List.mem_filter.mpr ⟨hx, ?_⟩, he⟩
    simp only [refsAnimal] at hrf
    by_contra hpx
    simp only [Bool.not_eq_true'] at hpx
    simp only [Bool.not_eq_false] at hpx
    have : x.id ∈ (db.animals.filter pred).map (·.id) :=
      List.mem_map_of_mem _ (List.mem_filter.mpr ⟨hx, hpx⟩)
    rw [he] at this
    have h2 : (List.map (fun x => x.id) (List.filter pred db.animals)).elem a = true :=
      List.elem_eq_true_of_mem this
    have h3 : (List.map (fun x => x.id) (List.filter pred db.animals)).contains a = true := h2
    rw [h3] at hrf
    cases hrf
  constructor
  · exact hdb.sess
  · intro a ha
    exact hdb.anim a (List.mem_of_mem_filter ha)
  · intro f hf
    exact hdb.feedU f (List.mem_of_mem_filter hf)
  · intro f hf
    have hm := List.mem_filter.mp hf
    exact href _ (hdb.feedA f hm.1) (by simpa using hm.2)
  · intro m hm
    exact hdb.measU m (List.mem_of_mem_filter hm)
  · intro m hm2
    have hm := List.mem_filter.mp hm2
    exact href _ (hdb.measA m hm.1) (by simpa using hm.2)
  · intro r hr
    exact hdb.remU r (List.mem_of_mem_filter hr)
  · intro r hr2
    have hm := List.mem_filter.mp hr2
    exact href _ (hdb.remA r hm.1) (by simpa using hm.2)

theorem FkOk.dbDeleteUserPreserves {db : Db} (uid : Nat) (hdb : FkOk db) :
    FkOk (dbDeleteUser db uid) := by
  have huref : ∀ (v : Nat), UserRefOk db.users v → v ≠ uid →
      UserRefOk (db.users.filter (fun u => !(u.id == uid))) v := by
    intro v h hv
    obtain ⟨u, hu, he⟩ := h
    refine ⟨u, List.mem_filter.mpr ⟨hu, ?_⟩, he⟩
    simp [he, hv]
  have haref : ∀ (o : Option Nat), AnimalRefOk db.animals o →
      refsAnimal o ((db.animals.filter (fun a => a.userId == uid)).map (·.id)) = false →
      AnimalRefOk (db.animals.filter (fun a => !(a.userId == uid))) o := by
    intro o h hrf a ha
    obtain ⟨x, hx, he⟩ := h a ha
    subst ha
    refine ⟨x, List.mem_filter.mpr ⟨hx, ?_⟩, he⟩
    simp only [refsAnimal] at hrf
    by_contra hpx
    simp only [Bool.not_eq_true'] at hpx
    simp only [Bool.not_eq_false] at hpx
    have hmem : x.id ∈ (db.animals.filter (fun a => a.userId == uid)).map (·.id) :=
      List.mem_map_of_mem _ (List.mem_filter.mpr ⟨hx, hpx⟩)
    rw [he] at hmem
    have h2 : ((db.animals.filter (fun a => a.userId == uid)).map (·.id)).elem a = true :=
      List.elem_eq_true_of_mem hmem
    have h3 : ((db.animals.filter (fun a => a.userId == uid)).map (·.id)).contains a = true := h2
    rw [h3] at hrf
    cases hrf
  constructor
  · intro s hs
    have hm := List.mem_filter.mp hs
    refine huref _ (hdb.sess s hm.1) ?_
    have := hm.2
    simp at this
    exact this
  · intro a ha
    have hm := List.mem_filter.mp ha
    refine huref _ (hdb.anim a hm.1) ?_
    have := hm.2
    simp at this
    exact this
  · intro f hf
    have hm := List.mem_filter.mp hf
    refine huref _ (hdb.feedU f hm.1) ?_
    have := hm.2
    simp at this
    exact this.1
  · intro f hf
    have hm := List.mem_filter.mp hf
    refine haref _ (hdb.feedA f hm.1) ?_
    have := hm.2
    simp only [Bool.and_eq_true, Bool.not_eq_true'] at this
    exact this.2
  · intro m hm2
    have hm := List.mem_filter.mp hm2
    refine huref _ (hdb.measU m hm.1) ?_
    have := hm.2
    simp at this
    exact this.1
  · intro m hm2
    have hm := List.mem_filter.mp hm2
    refine haref _ (hdb.measA m hm.1) ?_
    have := hm.2
    simp only [Bool.and_eq_true, Bool.not_eq_true'] at this
    exact this.2
  · intro r hr
    have hm := List.mem_filter.mp hr
    refine huref _ (hdb.remU r hm.1) ?_
    have := hm.2
    simp at this
    exact this.1
  · intro r hr
    have hm := List.mem_filter.mp hr
    refine haref _ (hdb.remA r hm.1) ?_
    have := hm.2
    simp only [Bool.and_eq_true, Bool.not_eq_true'] at this
    exact this.2

theorem ensureAnimalOwnership_some (db : Db) (uid aid : Nat) (a : Animal)
    (h : ensureAnimalOwnership db uid aid = some a) :
    a ∈ db.animals ∧ a.id = aid ∧ a.userId = uid := by
  unfold ensureAnimalOwnership at h
  have hm := List.mem_of_find?_eq_some h
  have hp := List.find?_some h
  simp at hp
  exact ⟨hm, hp.1, hp.2⟩

theorem requireAuth_userRef (db : Db) (now : Nat) (tok : Option Nat)
    (ctx : AuthenticatedContext) (db2 : Db)
    (h : requireAuth db now tok = (some ctx, db2)) :
    UserRefOk db.users ctx.user.id :=
  ⟨ctx.user, (requireAuth_some db now tok ctx db2 h).2, rfl⟩

theorem fkOk_postFeeding (db : Db) (now : Nat) (tok : Option Nat)
    (raw : RawFeedingInput) (newId : Nat) (hdb : FkOk db) :
    FkOk (postFeeding db now tok raw newId).2 := by
  unfold postFeeding
  cases h : requireAuth db now tok with
  | mk a db1 =>
    cases a with
    | none =>
      simp only [h]
      have := FkOk.requireAuthSnd now tok hdb
      rw [h] at this
      exact this
    | some ctx =>
      obtain ⟨hdb1, hmem⟩ := requireAuth_some db now tok ctx db1 h
      simp only [h]
      rw [hdb1]
      cases hp : parseFeedingInput raw with
      | error e => simp only [hp]; exact hdb
      | ok p =>
        simp only [hp]
        cases ho : ensureAnimalOwnership db ctx.user.id p.animalId with
        | none => simp only [ho]; exact hdb
        | some a2 =>
          simp only [ho]
          refine FkOk.insertFeeding (mkFeedingRecord ctx.user.id p newId now) hdb
            ⟨ctx.user, hmem, rfl⟩ ?_
          intro b hb
          obtain ⟨ha2, hid, _⟩ :=
            ensureAnimalOwnership_some db ctx.user.id p.animalId a2 ho
          simp only [mkFeedingRecord, Option.some.injEq] at hb
          exact ⟨a2, ha2, hb ▸ hid⟩

theorem fkOk_postMeasurement (db : Db) (now : Nat) (tok : Option Nat)
    (raw : RawMeasurementInput) (newId : Nat) (hdb : FkOk db) :
    FkOk (postMeasurement db now tok raw newId).2 := by
  unfold postMeasurement
  cases h : requireAuth db now tok with
  | mk a db1 =>
    cases a with
    | none =>
      simp only [h]
      have := FkOk.requireAuthSnd now tok hdb
      rw [h] at this
      exact this
    | some ctx =>
      obtain ⟨hdb1, hmem⟩ := requireAuth_some db now tok ctx db1 h
      simp only [h]
      rw [hdb1]
      cases hp : parseMeasurementInput raw with
      | error e => simp only [hp]; exact hdb
      | ok p =>
        simp only [hp]
        cases ho : ensureAnimalOwnership db ctx.user.id p.animalId with
        | none => simp only [ho]; exact hdb
        | some a2 =>
          simp only [ho]
          refine FkOk.insertMeasurement (mkMeasurementLog ctx.user.id p newId now) hdb
            ⟨ctx.user, hmem, rfl⟩ ?_
          intro b hb
          obtain ⟨ha2, hid, _⟩ :=
            ensureAnimalOwnership_some db ctx.user.id p.animalId a2 ho
          simp only [mkMeasurementLog, Option.some.injEq] at hb
          exact ⟨a2, ha2, hb ▸ hid⟩

theorem fkOk_postReminder (db : Db) (now : Nat) (tok : Option Nat)
    (raw : RawCreateReminder) (newId : Nat) (hdb : FkOk db) :
    FkOk (postReminder db now tok raw newId).2 := by
  unfold postReminder
  cases h : requireAuth db now tok with
  | mk a db1 =>
    cases a with
    | none =>
      simp only [h]
      have := FkOk.requireAuthSnd now tok hdb
      rw [h] at this
      exact this
    | some ctx =>
      obtain ⟨hdb1, hmem⟩ := requireAuth_some db now tok ctx db1 h
      simp only [h]
      rw [hdb1]
      cases hp : parseCreateReminder raw with
      | error e => simp only [hp]; exact hdb
      | ok p =>
        simp only [hp]
        cases ho : ensureAnimalOwnership db ctx.user.id p.animalId with
        | none => simp only [ho]; exact hdb
        | some a2 =>
          simp only [ho]
          refine FkOk.insertReminder (mkReminder ctx.user.id p newId now) hdb
            ⟨ctx.user, hmem, rfl⟩ ?_
          intro b hb
          obtain ⟨ha2, hid, _⟩ :=
            ensureAnimalOwnership_some db ctx.user.id p.animalId a2 ho
          simp only [mkReminder, Option.some.injEq] at hb
          exact ⟨a2, ha2, hb ▸ hid⟩

theorem fkOk_postAnimal (db : Db) (now : Nat) (tok : Option Nat)
    (raw : RawCreateAnimal) (newId : Nat) (hdb : FkOk db) :
    FkOk (postAnimal db now tok raw newId).2 := by
  unfold postAnimal
  cases h : requireAuth db now tok with
  | mk a db1 =>
    cases a with
    | none =>
      simp only [h]
      have := FkOk.requireAuthSnd now tok hdb
      rw [h] at this
      exact this
    | some ctx =>
      obtain ⟨hdb1, hmem⟩ := requireAuth_some db now tok ctx db1 h
      simp only [h]
      rw [hdb1]
      cases hp : parseCreateAnimal raw with
      | error e => simp only [hp]; exact hdb
      | ok p =>
        simp only [hp]
        cases hd : db.animals.find?
            (fun a => a.userId == ctx.user.id && a.name == jsTrim p.name) with
        | some d => simp only [hd]; exact hdb
        | none =>
          simp only [hd]
          exact FkOk.insertAnimal (mkAnimal ctx.user.id p newId now) hdb
            ⟨ctx.user, hmem, rfl⟩

theorem fkOk_deleteFeeding (db : Db) (now : Nat) (tok : Option Nat)
    (rawParams : Option Nat) (hdb : FkOk db) :
    FkOk (deleteFeeding db now tok rawParams).2 := by
  unfold deleteFeeding
  cases h : requireAuth db now tok with
  | mk a db1 =>
    cases a with
    | none =>
      simp only [h]
      have := FkOk.requireAuthSnd now tok hdb
      rw [h] at this
      exact this
    | some ctx =>
      obtain ⟨hdb1, hmem⟩ := requireAuth_some db now tok ctx db1 h
      simp only [h]
      rw [hdb1]
      cases rawParams with
      | none => exact hdb
      | some id =>
        dsimp only
        split <;> exact FkOk.filterFeedings _ hdb

theorem fkOk_deleteMeasurement (db : Db) (now : Nat) (tok : Option Nat)
    (rawParams : Option Nat) (hdb : FkOk db) :
    FkOk (deleteMeasurement db now tok rawParams).2 := by
  unfold deleteMeasurement
  cases h : requireAuth db now tok with
  | mk a db1 =>
    cases a with
    | none =>
      simp only [h]
      have := FkOk.requireAuthSnd now tok hdb
      rw [h] at this
      exact this
    | some ctx =>
      obtain ⟨hdb1, hmem⟩ := requireAuth_some db now tok ctx db1 h
      simp only [h]
      rw [hdb1]
      cases rawParams with
      | none => exact hdb
      | some id =>
        dsimp only
        split <;> exact FkOk.filterMeasurements _ hdb

theorem fkOk_deleteReminder (db : Db) (now : Nat) (tok : Option Nat)
    (rawParams : Option Nat) (hdb : FkOk db) :
    FkOk (deleteReminder db now tok rawParams).2 := by
  unfold deleteReminder
  cases h : requireAuth db now tok with
  | mk a db1 =>
    cases a with
    | none =>
      simp only [h]
      have := FkOk.requireAuthSnd now tok hdb
      rw [h] at this
      exact this
    | some ctx =>
      obtain ⟨hdb1, hmem⟩ := requireAuth_some db now tok ctx db1 h
      simp only [h]
      rw [hdb1]
      cases rawParams with
      | none => exact hdb
      | some id =>
        dsimp only
        split <;> exact FkOk.filterReminders _ hdb

theorem fkOk_deleteAnimal (db : Db) (now : Nat) (tok : Option Nat)
    (rawParams : Option Nat) (hdb : FkOk db) :
    FkOk (deleteAnimal db now tok rawParams).2 := by
  unfold deleteAnimal
  cases h : requireAuth db now tok with
  | mk a db1 =>
    cases a with
    | none =>
      simp only [h]
      have := FkOk.requireAuthSnd now tok hdb
      rw [h] at this
      exact this
    | some ctx =>
      obtain ⟨hdb1, hmem⟩ := requireAuth_some db now tok ctx db1 h
      simp only [h]
      rw [hdb1]
      cases rawParams with
      | none => exact hdb
      | some id =>
        dsimp only
        split <;> exact FkOk.cascadePreserves _ hdb

theorem fkOk_getFeedings (db : Db) (now : Nat) (tok : Option Nat)
    (rawQuery : Option Nat) (hdb : FkOk db) :
    FkOk (getFeedings db now tok rawQuery).2 := by
  unfold getFeedings
  cases h : requireAuth db now tok with
  | mk a db1 =>
    have hsnd := FkOk.requireAuthSnd now tok hdb
    rw [h] at hsnd
    cases a with
    | none => simp only [h]; exact hsnd
    | some ctx =>
      simp only [h]
      cases rawQuery with
      | none => exact hsnd
      | some aid =>
        dsimp only
        split <;> exact hsnd

theorem fkOk_getMeasurements (db : Db) (now : Nat) (tok : Option Nat)
    (rawQuery : Option Nat) (hdb : FkOk db) :
    FkOk (getMeasurements db now tok rawQuery).2 := by
  unfold getMeasurements
  cases h : requireAuth db now tok with
  | mk a db1 =>
    have hsnd := FkOk.requireAuthSnd now tok hdb
    rw [h] at hsnd
    cases a with
    | none => simp only [h]; exact hsnd
    | some ctx =>
      simp only [h]
      cases rawQuery with
      | none => exact hsnd
      | some aid =>
        dsimp only
        split <;> exact hsnd

theorem fkOk_getReminders (db : Db) (now : Nat) (tok : Option Nat)
    (rawQuery : Option Nat) (hdb : FkOk db) :
    FkOk (getReminders db now tok rawQuery).2 := by
  unfold getReminders
  cases h : requireAuth db now tok with
  | mk a db1 =>
    have hsnd := FkOk.requireAuthSnd now tok hdb
    rw [h] at hsnd
    cases a with
    | none => simp only [h]; exact hsnd
    | some ctx =>
      simp only [h]
      cases rawQuery with
      | none => exact hsnd
      | some aid =>
        dsimp only
        split <;> exact hsnd

theorem fkOk_getMe (db : Db) (now : Nat) (tok : Option Nat) (hdb : FkOk db) :
    FkOk (getMe db now tok).2 := by
  unfold getMe
  cases tok with
  | none => exact hdb
  | some t =>
    cases h : getActiveSessionByToken db now t with
    | mk a db1 =>
      have hsnd := FkOk.gasSnd now t hdb
      rw [h] at hsnd
      cases a with
      | none => simp only [h]; exact hsnd
      | some ctx => simp only [h]; exact hsnd

theorem fkOk_logout (db : Db) (tok : Option Nat) (hdb : FkOk db) :
    FkOk (logoutUser db tok).2 := by
  unfold logoutUser
  cases tok with
  | none => exact hdb
  | some t => exact FkOk.filterSessions _ hdb

theorem fkOk_registerUser (db : Db) (now : Nat) (raw : RawCredentials)
    (passwordHash : String) (newUserId token : Nat) (hdb : FkOk db) :
    FkOk (registerUser db now raw passwordHash newUserId token).2 := by
  unfold registerUser createSession
  cases hp : parseCredentials raw with
  | error e => exact hdb
  | ok p =>
    dsimp only
    cases hf : findUserByUsername db (normalizeUsername p.username) with
    | some u => exact hdb
    | none =>
      dsimp only
      refine FkOk.insertSession _ (FkOk.insertUser _ hdb) ?_
      refine ⟨{ id := newUserId
                username := normalizeUsername p.username
                passwordHash := passwordHash
                role := "user"
                isActive := true
                createdAt := now
                updatedAt := now }, ?_, rfl⟩
      simp

theorem fkOk_loginUser (db : Db) (now : Nat) (raw : RawCredentials)
    (verify : String → String → Bool) (token : Nat) (hdb : FkOk db) :
    FkOk (loginUser db now raw verify token).2 := by
  unfold loginUser createSession
  cases hp : parseCredentials raw with
  | error e => exact hdb
  | ok p =>
    dsimp only
    cases hf : findUserByUsername db (normalizeUsername p.username) with
    | none => exact hdb
    | some existingUser =>
      dsimp only
      split
      · exact hdb
      · split
        · exact hdb
        · refine FkOk.insertSession _ hdb ?_
          exact ⟨existingUser, List.mem_of_find?_eq_some hf, rfl⟩

theorem applyAnimalUpdate_userId (u : UpdateAnimalInput) (now : Nat) (a : Animal) :
    (applyAnimalUpdate u now a).userId = a.userId := rfl

theorem applyAnimalUpdate_id (u : UpdateAnimalInput) (now : Nat) (a : Animal) :
    (applyAnimalUpdate u now a).id = a.id := rfl

theorem applyReminderUpdate_userId (u : UpdateReminderInput) (now : Nat)
    (r : Reminder) : (applyReminderUpdate u now r).userId = r.userId := rfl

theorem applyReminderUpdate_animalId (u : UpdateReminderInput) (now : Nat)
    (r : Reminder) :
    (applyReminderUpdate u now r).animalId =
      match u.animalId with
      | some a => some a
      | none => r.animalId := rfl

theorem FkOk.mapAnimalsIf {db : Db} (pred : Animal → Bool)
    (updates : UpdateAnimalInput) (now : Nat) (hdb : FkOk db) :
    FkOk { db with animals :=
      db.animals.map (fun a => if pred a then applyAnimalUpdate updates now a else a) } := by
  refine FkOk.mapAnimals _ hdb ?_ ?_
  · intro a
    change (if pred a then applyAnimalUpdate updates now a else a).userId = a.userId
    split
    · exact applyAnimalUpdate_userId updates now a
    · rfl
  · intro a
    change (if pred a then applyAnimalUpdate updates now a else a).id = a.id
    split
    · exact applyAnimalUpdate_id updates now a
    · rfl

theorem FkOk.mapRemindersIf {db : Db} (pred : Reminder → Bool)
    (updates : UpdateReminderInput) (now : Nat) (hdb : FkOk db)
    (ha : ∀ aid, updates.animalId = some aid → ∃ x ∈ db.animals, x.id = aid) :
    FkOk { db with reminders := db.reminders.map (fun r => if pred r then applyReminderUpdate updates now r else r) } := by
  refine FkOk.mapReminders _ hdb ?_ ?_
  · intro r
    change (if pred r then applyReminderUpdate updates now r else r).userId = r.userId
    split
    · exact applyReminderUpdate_userId updates now r
    · rfl
  · intro r hr
    change AnimalRefOk db.animals
      (if pred r then applyReminderUpdate updates now r else r).animalId
    split
    · rw [applyReminderUpdate_animalId]
      cases hcase : updates.animalId with
      | none => exact hdb.remA r hr
      | some aid =>
        intro b hb
        simp only [Option.some.injEq] at hb
        exact hb ▸ ha aid hcase
    · exact hdb.remA r hr

theorem fkOk_patchAnimal (db : Db) (now : Nat) (tok : Option Nat)
    (rawParams : Option Nat) (rawBody : RawUpdateAnimal) (hdb : FkOk db) :
    FkOk (patchAnimal db now tok rawParams rawBody).2 := by
  unfold patchAnimal patchAnimalApply
  cases h : requireAuth db now tok with
  | mk a db1 =>
    have hsnd := FkOk.requireAuthSnd now tok hdb
    rw [h] at hsnd
    cases a with
    | none => simp only [h]; exact hsnd
    | some ctx =>
      obtain ⟨hdb1, hmem⟩ := requireAuth_some db now tok ctx db1 h
      simp only [h]
      rw [hdb1]
      repeat' split
      all_goals first
        | exact hdb
        | exact FkOk.mapAnimalsIf _ _ _ hdb

theorem fkOk_patchReminder (db : Db) (now : Nat) (tok : Option Nat)
    (rawParams : Option Nat) (rawBody : RawUpdateReminderBody) (hdb : FkOk db) :
    FkOk (patchReminder db now tok rawParams rawBody).2 := by
  unfold patchReminder
  cases h : requireAuth db now tok with
  | mk a db1 =>
    have hsnd := FkOk.requireAuthSnd now tok hdb
    rw [h] at hsnd
    cases a with
    | none => simp only [h]; exact hsnd
    | some ctx =>
      obtain ⟨hdb1, hmem⟩ := requireAuth_some db now tok ctx db1 h
      simp only [h]
      rw [hdb1]
      cases rawParams with
      | none => exact hdb
      | some id =>
        dsimp only
        cases hp : parseUpdateReminder rawBody with
        | error e => exact hdb
        | ok updates =>
          dsimp only
          split
          · exact hdb
          · cases hanim : updates.animalId with
            | none =>
              simp only [hanim]
              have hmap := FkOk.mapRemindersIf
                (fun r => r.id == id && r.userId == ctx.user.id) updates now hdb
                (fun aid haid => by rw [hanim] at haid; cases haid)
              simp only [Bool.not_true, Bool.false_eq_true, if_false]
              split <;> exact hmap
            | some aid =>
              simp only [hanim]
              by_cases hb : (ensureAnimalOwnership db ctx.user.id aid).isSome = true
              · obtain ⟨a2, he⟩ := Option.isSome_iff_exists.mp hb
                obtain ⟨ha2, hid, _⟩ :=
                  ensureAnimalOwnership_some db ctx.user.id aid a2 he
                have hmap := FkOk.mapRemindersIf
                  (fun r => r.id == id && r.userId == ctx.user.id) updates now hdb
                  (fun aid2 haid2 => by
                    rw [hanim] at haid2
                    injection haid2 with haid2
                    exact ⟨a2, ha2, haid2 ▸ hid⟩)
                simp only [hb, Bool.not_true, Bool.false_eq_true, if_false]
                split <;> exact hmap
              · have hb2 : (ensureAnimalOwnership db ctx.user.id aid).isSome = false := by
                  simpa using hb
                simp only [hb2, Bool.not_false, if_true]
                exact hdb

/-- Executable referential-integrity check mirroring `FkOk`. -/
def fkOkCheck (db : Db) : Bool :=
  db.sessions.all (fun s => db.users.any (fun u => u.id == s.userId)) &&
    db.animals.all (fun a => db.users.any (fun u => u.id == a.userId)) &&
    db.feedings.all (fun f =>
      db.users.any (fun u => u.id == f.userId) &&
        (match f.animalId with
          | none => true
          | some a => db.animals.any (fun x => x.id == a))) &&
    db.measurements.all (fun m =>
      db.users.any (fun u => u.id == m.userId) &&
        (match m.animalId with
          | none => true
          | some a => db.animals.any (fun x => x.id == a))) &&
    db.reminders.all (fun r =>
      db.users.any (fun u => u.id == r.userId) &&
        (match r.animalId with
          | none => true
          | some a => db.animals.any (fun x => x.id == a)))

theorem userRefOk_of_any {users : List User} {uid : Nat}
    (h : users.any (fun u => u.id == uid) = true) : UserRefOk users uid := by
  obtain ⟨u, hu, he⟩ := List.any_eq_true.mp h
  exact ⟨u, hu, by simpa using he⟩

theorem animalRefOk_of_match {animals : List Animal} {o : Option Nat}
    (h : (match o with
      | none => true
      | some a => animals.any (fun x => x.id == a)) = true) :
    AnimalRefOk animals o := by
  intro a ha
  subst ha
  obtain ⟨x, hx, he⟩ := List.any_eq_true.mp h
  exact ⟨x, hx, by simpa using he⟩

theorem fkOk_of_check (db : Db) (h : fkOkCheck db = true) : FkOk db := by
  unfold fkOkCheck at h
  simp only [Bool.and_eq_true] at h
  obtain ⟨⟨⟨⟨hs, ha⟩, hf⟩, hm⟩, hr⟩ := h
  constructor
  · intro s hsm
    exact userRefOk_of_any (List.all_eq_true.mp hs s hsm)
  · intro a ham
    exact userRefOk_of_any (List.all_eq_true.mp ha a ham)
  · intro f hfm
    have h2 := List.all_eq_true.mp hf f hfm
    simp only [Bool.and_eq_true] at h2
    exact userRefOk_of_any h2.1
  · intro f hfm
    have h2 := List.all_eq_true.mp hf f hfm
    simp only [Bool.and_eq_true] at h2
    exact animalRefOk_of_match h2.2
  · intro m hmm
    have h2 := List.all_eq_true.mp hm m hmm
    simp only [Bool.and_eq_true] at h2
    exact userRefOk_of_any h2.1
  · intro m hmm
    have h2 := List.all_eq_true.mp hm m hmm
    simp only [Bool.and_eq_true] at h2
    exact animalRefOk_of_match h2.2
  · intro r hrm
    have h2 := List.all_eq_true.mp hr r hrm
    simp only [Bool.and_eq_true] at h2
    exact userRefOk_of_any h2.1
  · intro r hrm
    have h2 := List.all_eq_true.mp hr r hrm
    simp only [Bool.and_eq_true] at h2
    exact animalRefOk_of_match h2.2

/-- C4: deleting a user cascades to every row referencing it; deleting an
animal (in an integral store) cascades to every row referencing it; and every
operation of the API, together with the two DB-level deletions, preserves
referential integrity (`FkOk`). -/
theorem cascadeDeletesPreserveIntegrity :
    (∀ db uid,
      (∀ u ∈ (dbDeleteUser db uid).users, u.id ≠ uid) ∧
      (∀ s ∈ (dbDeleteUser db uid).sessions, s.userId ≠ uid) ∧
      (∀ a ∈ (dbDeleteUser db uid).animals, a.userId ≠ uid) ∧
      (∀ f ∈ (dbDeleteUser db uid).feedings, f.userId ≠ uid) ∧
      (∀ m ∈ (dbDeleteUser db uid).measurements, m.userId ≠ uid) ∧
      (∀ r ∈ (dbDeleteUser db uid).reminders, r.userId ≠ uid)) ∧
    (∀ db aid, FkOk db →
      (∀ a ∈ (dbDeleteAnimal db aid).animals, a.id ≠ aid) ∧
      (∀ f ∈ (dbDeleteAnimal db aid).feedings, f.animalId ≠ some aid) ∧
      (∀ m ∈ (dbDeleteAnimal db aid).measurements, m.animalId ≠ some aid) ∧
      (∀ r ∈ (dbDeleteAnimal db aid).reminders, r.animalId ≠ some aid)) ∧
    (∀ now op db, FkOk db → FkOk (applyOp now op db).2) := by
  refine ⟨?_, ?_, ?_⟩
  · intro db uid
    refine ⟨?_, ?_, ?_, ?_, ?_, ?_⟩
    · intro u hu
      have := (List.mem_filter.mp hu).2
      simpa using this
    · intro s hs
      have := (List.mem_filter.mp hs).2
      simpa using this
    · intro a ha
      have := (List.mem_filter.mp ha).2
      simpa using this
    · intro f hf
      have := (List.mem_filter.mp hf).2
      simp only [Bool.and_eq_true, Bool.not_eq_true'] at this
      simpa using this.1
    · intro m hm
      have := (List.mem_filter.mp hm).2
      simp only [Bool.and_eq_true, Bool.not_eq_true'] at this
      simpa using this.1
    · intro r hr
      have := (List.mem_filter.mp hr).2
      simp only [Bool.and_eq_true, Bool.not_eq_true'] at this
      simpa using this.1
  · intro db aid hdb
    have key : ∀ (o : Option Nat), AnimalRefOk db.animals o →
        refsAnimal o ((db.animals.filter (fun a => a.id == aid)).map (·.id)) = false →
        o ≠ some aid := by
      intro o h hrf hco
      subst hco
      obtain ⟨x, hx, he⟩ := h aid rfl
      have hmem : aid ∈ (db.animals.filter (fun a => a.id == aid)).map (·.id) := by
        refine he ▸ List.mem_map_of_mem _ (List.mem_filter.mpr ⟨hx, by simp [he]⟩)
      have h2 : ((db.animals.filter (fun a => a.id == aid)).map (·.id)).contains aid = true :=
        List.elem_eq_true_of_mem hmem
      simp only [refsAnimal] at hrf
      rw [h2] at hrf
      cases hrf
    refine ⟨?_, ?_, ?_, ?_⟩
    · intro a ha
      have := (List.mem_filter.mp ha).2
      simpa using this
    · intro f hf
      have hm := List.mem_filter.mp hf
      exact key _ (hdb.feedA f hm.1) (by simpa using hm.2)
    · intro m hm2
      have hm := List.mem_filter.mp hm2
      exact key _ (hdb.measA m hm.1) (by simpa using hm.2)
    · intro r hr2
      have hm := List.mem_filter.mp hr2
      exact key _ (hdb.remA r hm.1) (by simpa using hm.2)
  · intro now op db hdb
    cases op with
    | register raw passwordHash newUserId token =>
      exact fkOk_registerUser db now raw passwordHash newUserId token hdb
    | login raw verify token => exact fkOk_loginUser db now raw verify token hdb
    | me token => exact fkOk_getMe db now token hdb
    | logout token => exact fkOk_logout db token hdb
    | animalCreate token raw newId => exact fkOk_postAnimal db now token raw newId hdb
    | animalPatch token rawParams rawBody =>
      exact fkOk_patchAnimal db now token rawParams rawBody hdb
    | animalDelete token rawParams => exact fkOk_deleteAnimal db now token rawParams hdb
    | feedingCreate token raw newId => exact fkOk_postFeeding db now token raw newId hdb
    | feedingList token rawQuery => exact fkOk_getFeedings db now token rawQuery hdb
    | feedingDelete token rawParams => exact fkOk_deleteFeeding db now token rawParams hdb
    | measurementCreate token raw newId =>
      exact fkOk_postMeasurement db now token raw newId hdb
    | measurementList token rawQuery => exact fkOk_getMeasurements db now token rawQuery hdb
    | measurementDelete token rawParams =>
      exact fkOk_deleteMeasurement db now token rawParams hdb
    | reminderCreate token raw newId => exact fkOk_postReminder db now token raw newId hdb
    | reminderList token rawQuery => exact fkOk_getReminders db now token rawQuery hdb
    | reminderPatch token rawParams rawBody =>
      exact fkOk_patchReminder db now token rawParams rawBody hdb
    | reminderDelete token rawParams => exact fkOk_deleteReminder db now token rawParams hdb
    | userDrop uid => exact FkOk.dbDeleteUserPreserves uid hdb
    | animalDrop aid => exact FkOk.cascadePreserves _ hdb

/-- A store with one feeding, measurement and reminder, all referencing
alice's animal 10. -/
def seededDb : Db :=
  { users := [aliceUser, bobUser]
    sessions := [⟨100, 1, 1000, 0⟩, ⟨200, 2, 1000, 0⟩]
    animals := [rexAnimal, lizzyAnimal]
    feedings := [⟨20, 1, some 10, 5, "fully", some "mice", some "1", none, none, 5, 5⟩]
    measurements := [⟨21, 1, some 10, "weight", some 12, none, none, 5, 5, 5⟩]
    reminders := [⟨22, 1, some 10, "feed", none, false, none, false, none, 5, 5⟩] }

/-- Witness for C4: `seededDb` is integral; deleting user 1 leaves no row
referencing user 1, deleting animal 10 leaves no row referencing animal 10,
and a concrete operation preserves integrity. -/
theorem cascadeDeletesPreserveIntegrity_witness :
    fkOkCheck seededDb = true ∧
      (∀ u ∈ (dbDeleteUser seededDb 1).users, u.id ≠ 1) ∧
      (∀ s ∈ (dbDeleteUser seededDb 1).sessions, s.userId ≠ 1) ∧
      (∀ f ∈ (dbDeleteUser seededDb 1).feedings, f.userId ≠ 1) ∧
      (∀ f ∈ (dbDeleteAnimal seededDb 10).feedings, f.animalId ≠ some 10) ∧
      (∀ m ∈ (dbDeleteAnimal seededDb 10).measurements, m.animalId ≠ some 10) ∧
      (∀ r ∈ (dbDeleteAnimal seededDb 10).reminders, r.animalId ≠ some 10) ∧
      FkOk (applyOp 10 (.feedingDelete (some 100) (some 20)) seededDb).2 :=
  ⟨by decide,
    (cascadeDeletesPreserveIntegrity.1 seededDb 1).1,
    (cascadeDeletesPreserveIntegrity.1 seededDb 1).2.1,
    (cascadeDeletesPreserveIntegrity.1 seededDb 1).2.2.2.1,
    (cascadeDeletesPreserveIntegrity.2.1 seededDb 10
      (fkOk_of_check seededDb (by decide))).2.1,
    (cascadeDeletesPreserveIntegrity.2.1 seededDb 10
      (fkOk_of_check seededDb (by decide))).2.2.1,
    (cascadeDeletesPreserveIntegrity.2.1 seededDb 10
      (fkOk_of_check seededDb (by decide))).2.2.2,
    cascadeDeletesPreserveIntegrity.2.2 10 (.feedingDelete (some 100) (some 20))
      seededDb (fkOk_of_check seededDb (by decide))⟩

/-! ### Claim C10: list queries are bounded and most-recent-first -/

/-- C10: the feeding and measurement list queries return at most 200 rows,
sorted by the primary timestamp then `createdAt`, both descending; every
returned row matches the owner/animal filter; and when more than 200 rows
match, exactly 200 are returned, so the rest (the oldest under the ordering)
are omitted. The GET handlers serve exactly these lists. -/
theorem listsBoundedAndOrdered :
    (∀ db uid aid,
      (feedingsQuery db uid aid).length ≤ 200 ∧
      List.Sorted (descLex (·.feedingDate) (·.createdAt)) (feedingsQuery db uid aid) ∧
      (∀ f ∈ feedingsQuery db uid aid,
        f ∈ db.feedings ∧ f.userId = uid ∧ f.animalId = some aid) ∧
      (200 < (db.feedings.filter
          (fun f => f.userId == uid && f.animalId == some aid)).length →
        (feedingsQuery db uid aid).length = 200)) ∧
    (∀ db uid aid,
      (measurementsQuery db uid aid).length ≤ 200 ∧
      List.Sorted (descLex (·.recordedAt) (·.createdAt)) (measurementsQuery db uid aid) ∧
      (∀ m ∈ measurementsQuery db uid aid,
        m ∈ db.measurements ∧ m.userId = uid ∧ m.animalId = some aid) ∧
      (200 < (db.measurements.filter
          (fun m => m.userId == uid && m.animalId == some aid)).length →
        (measurementsQuery db uid aid).length = 200)) ∧
    (∀ db now tok ctx aid a2, requireAuth db now tok = (some ctx, db) →
      ensureAnimalOwnership db ctx.user.id aid = some a2 →
      getFeedings db now tok (some aid) =
        (⟨200, .arr ((feedingsQuery db ctx.user.id aid).map toFeedingResponse)⟩, db) ∧
      getMeasurements db now tok (some aid) =
        (⟨200, .arr ((measurementsQuery db ctx.user.id aid).map toMeasurementResponse)⟩, db)) := by
  refine ⟨?_, ?_, ?_⟩
  · intro db uid aid
    refine ⟨?_, ?_, ?_, ?_⟩
    · simp [feedingsQuery, List.length_take]
    · exact (List.sorted_insertionSort _ _).sublist (List.take_sublist _ _)
    · intro f hf
      have hm : f ∈ (db.feedings.filter
          (fun f => f.userId == uid && f.animalId == some aid)).insertionSort
            (descLex (·.feedingDate) (·.createdAt)) := List.mem_of_mem_take hf
      have hm2 := (List.mem_insertionSort _).mp hm
      have := List.mem_filter.mp hm2
      refine ⟨this.1, ?_, ?_⟩
      · have h2 := this.2
        simp only [Bool.and_eq_true, beq_iff_eq] at h2
        exact h2.1
      · have h2 := this.2
        simp only [Bool.and_eq_true, beq_iff_eq] at h2
        exact h2.2
    · intro hgt
      have hlen : ((db.feedings.filter
          (fun f => f.userId == uid && f.animalId == some aid)).insertionSort
            (descLex (·.feedingDate) (·.createdAt))).length =
          (db.feedings.filter
            (fun f => f.userId == uid && f.animalId == some aid)).length :=
        (List.perm_insertionSort _ _).length_eq
      simp [feedingsQuery, List.length_take, hlen]
      omega
  · intro db uid aid
    refine ⟨?_, ?_, ?_, ?_⟩
    · simp [measurementsQuery, MEASUREMENT_LIMIT, List.length_take]
    · exact (List.sorted_insertionSort _ _).sublist (List.take_sublist _ _)
    · intro m hm0
      have hm : m ∈ (db.measurements.filter
          (fun m => m.userId == uid && m.animalId == some aid)).insertionSort
            (descLex (·.recordedAt) (·.createdAt)) := List.mem_of_mem_take hm0
      have hm2 := (List.mem_insertionSort _).mp hm
      have := List.mem_filter.mp hm2
      refine ⟨this.1, ?_, ?_⟩
      · have h2 := this.2
        simp only [Bool.and_eq_true, beq_iff_eq] at h2
        exact h2.1
      · have h2 := this.2
        simp only [Bool.and_eq_true, beq_iff_eq] at h2
        exact h2.2
    · intro hgt
      have hlen : ((db.measurements.filter
          (fun m => m.userId == uid && m.animalId == some aid)).insertionSort
            (descLex (·.recordedAt) (·.createdAt))).length =
          (db.measurements.filter
            (fun m => m.userId == uid && m.animalId == some aid)).length :=
        (List.perm_insertionSort _ _).length_eq
      simp [measurementsQuery, MEASUREMENT_LIMIT, List.length_take, hlen]
      omega
  · intro db now tok ctx aid a2 hauth hown
    constructor
    · unfold getFeedings
      simp only [hauth, hown]
    · unfold getMeasurements
      simp only [hauth, hown]

/-- A store where alice's animal 10 has 201 feedings, with distinct feeding
dates descending in storage order. -/
def manyFeedingsDb : Db :=
  { users := [aliceUser]
    sessions := [⟨100, 1, 1000, 0⟩]
    animals := [rexAnimal]
    feedings := (List.range 201).map (fun i =>
      { id := 1000 + i, userId := 1, animalId := some 10, feedingDate := 300 - i
        consumed := "fully", foodType := none, quantity := none, notes := none
        weight := none, createdAt := 0, updatedAt := 0 })
    measurements := []
    reminders := [] }

set_option maxRecDepth 100000 in
/-- Witness for C10: with 201 matching feedings, the list query returns
exactly 200 rows and the GET handler serves that list. -/
theorem listsBoundedAndOrdered_witness :
    (200 < (manyFeedingsDb.feedings.filter
        (fun f => f.userId == 1 && f.animalId == some 10)).length ∧
      requireAuth manyFeedingsDb 10 (some 100) = (some aliceCtx, manyFeedingsDb) ∧
      ensureAnimalOwnership manyFeedingsDb 1 10 = some rexAnimal) ∧
    (feedingsQuery manyFeedingsDb 1 10).length = 200 ∧
    getFeedings manyFeedingsDb 10 (some 100) (some 10) =
      (⟨200, .arr ((feedingsQuery manyFeedingsDb 1 10).map toFeedingResponse)⟩,
        manyFeedingsDb) :=
  ⟨⟨by decide, by decide, by decide⟩,
    (listsBoundedAndOrdered.1 manyFeedingsDb 1 10).2.2.2 (by decide),
    (listsBoundedAndOrdered.2.2 manyFeedingsDb 10 (some 100) aliceCtx 10 rexAnimal
      (by decide) (by decide)).1⟩

/-! ### Claim C1: created records are retrievable by owner only -/

theorem requireAuth_congr (db db2 : Db) (now : Nat) (tok : Option Nat)
    (ctx : AuthenticatedContext) (hs : db2.sessions = db.sessions)
    (hu : db2.users = db.users)
    (h : requireAuth db now tok = (some ctx, db)) :
    requireAuth db2 now tok = (some ctx, db2) := by
  cases tok with
  | none => simp [requireAuth] at h
  | some t =>
    have h2 : getActiveSessionByToken db now t = (some ctx, db) := h
    show getActiveSessionByToken db2 now t = (some ctx, db2)
    unfold getActiveSessionByToken at h2 ⊢
    rw [hs, hu]
    cases hfs : db.sessions.find? (fun s => s.id == t) with
    | none => simp only [hfs] at h2; exact absurd h2 (by simp)
    | some s =>
      simp only [hfs] at h2 ⊢
      cases hfu : db.users.find? (fun u => u.id == s.userId) with
      | none => simp only [hfu] at h2; exact absurd h2 (by simp)
      | some u =>
        simp only [hfu] at h2 ⊢
        split at h2
        · exact absurd h2 (by simp)
        · rename_i hcond
          rw [if_neg hcond]
          injection h2 with h3 h4
          injection h3 with h3
          rw [h3]

theorem ensureAnimalOwnership_congr (db db2 : Db) (uid aid : Nat)
    (ha : db2.animals = db.animals) :
    ensureAnimalOwnership db2 uid aid = ensureAnimalOwnership db uid aid := by
  unfold ensureAnimalOwnership
  rw [ha]

theorem feedingsQuery_mem_userId (db : Db) (uid aid : Nat) (f : FeedingRecord)
    (hf : f ∈ feedingsQuery db uid aid) : f.userId = uid := by
  have hm := (List.mem_insertionSort _).mp (List.mem_of_mem_take hf)
  have h2 := (List.mem_filter.mp hm).2
  simp only [Bool.and_eq_true, beq_iff_eq] at h2
  exact h2.1

theorem measurementsQuery_mem_userId (db : Db) (uid aid : Nat)
    (m : MeasurementLog) (hm0 : m ∈ measurementsQuery db uid aid) :
    m.userId = uid := by
  have hm := (List.mem_insertionSort _).mp (List.mem_of_mem_take hm0)
  have h2 := (List.mem_filter.mp hm).2
  simp only [Bool.and_eq_true, beq_iff_eq] at h2
  exact h2.1

theorem remindersQuery_mem_userId (db : Db) (uid aid : Nat) (r : Reminder)
    (hr : r ∈ remindersQuery db uid aid) : r.userId = uid := by
  have hm := (List.mem_insertionSort _).mp hr
  have h2 := (List.mem_filter.mp hm).2
  simp only [Bool.and_eq_true, beq_iff_eq] at h2
  exact h2.1

theorem mem_feedingsQuery_of (db : Db) (uid aid : Nat) (f : FeedingRecord)
    (hf : f ∈ db.feedings) (hu : f.userId = uid) (ha : f.animalId = some aid)
    (hlen : (db.feedings.filter
      (fun f => f.userId == uid && f.animalId == some aid)).length ≤ 200) :
    f ∈ feedingsQuery db uid aid := by
  have hfil : f ∈ db.feedings.filter
      (fun f => f.userId == uid && f.animalId == some aid) :=
    List.mem_filter.mpr ⟨hf, by simp [hu, ha]⟩
  have hsort : f ∈ (db.feedings.filter
      (fun f => f.userId == uid && f.animalId == some aid)).insertionSort
        (descLex (·.feedingDate) (·.createdAt)) :=
    (List.mem_insertionSort _).mpr hfil
  have hlen2 : ((db.feedings.filter
      (fun f => f.userId == uid && f.animalId == some aid)).insertionSort
        (descLex (·.feedingDate) (·.createdAt))).length ≤ 200 := by
    rw [(List.perm_insertionSort _ _).length_eq]
    exact hlen
  unfold feedingsQuery
  rw [List.take_of_length_le hlen2]
  exact hsort

theorem mem_measurementsQuery_of (db : Db) (uid aid : Nat) (m : MeasurementLog)
    (hf : m ∈ db.measurements) (hu : m.userId = uid) (ha : m.animalId = some aid)
    (hlen : (db.measurements.filter
      (fun m => m.userId == uid && m.animalId == some aid)).length ≤ 200) :
    m ∈ measurementsQuery db uid aid := by
  have hfil : m ∈ db.measurements.filter
      (fun m => m.userId == uid && m.animalId == some aid) :=
    List.mem_filter.mpr ⟨hf, by simp [hu, ha]⟩
  have hsort : m ∈ (db.measurements.filter
      (fun m => m.userId == uid && m.animalId == some aid)).insertionSort
        (descLex (·.recordedAt) (·.createdAt)) :=
    (List.mem_insertionSort _).mpr hfil
  have hlen2 : ((db.measurements.filter
      (fun m => m.userId == uid && m.animalId == some aid)).insertionSort
        (descLex (·.recordedAt) (·.createdAt))).length ≤ MEASUREMENT_LIMIT := by
    rw [(List.perm_insertionSort _ _).length_eq]
    exact hlen
  unfold measurementsQuery
  rw [List.take_of_length_le hlen2]
  exact hsort

theorem mem_remindersQuery_of (db : Db) (uid aid : Nat) (r : Reminder)
    (hf : r ∈ db.reminders) (hu : r.userId = uid) (ha : r.animalId = some aid) :
    r ∈ remindersQuery db uid aid := by
  have hfil : r ∈ db.reminders.filter
      (fun r => r.userId == uid && r.animalId == some aid) :=
    List.mem_filter.mpr ⟨hf, by simp [hu, ha]⟩
  exact (List.mem_insertionSort _).mpr hfil

/-- A feeding body whose feeding date (50) is older than every stored one. -/
def lateFeedingRaw : RawFeedingInput :=
  ⟨some 10, some 50, none, some "mice", some "1", none, none⟩

set_option maxRecDepth 400000 in
/-- C1 counterexample: with 201 newer feedings already stored, a feeding
created by its owner with an older date is accepted (201) and stored, yet the
owner's own subsequent GET list omits it, because the list query keeps only
the first 200 rows in date order. -/
theorem createdRecordsOwnerOnly_counterexample :
    (postFeeding manyFeedingsDb 10 (some 100) lateFeedingRaw 999).1.status = 201 ∧
      ((postFeeding manyFeedingsDb 10 (some 100) lateFeedingRaw 999).2.feedings.any
        (fun f => f.id == 999)) = true ∧
      ((feedingsQuery (postFeeding manyFeedingsDb 10 (some 100) lateFeedingRaw 999).2
          1 10).all (fun f => f.id != 999)) = true ∧
      (getFeedings (postFeeding manyFeedingsDb 10 (some 100) lateFeedingRaw 999).2
        10 (some 100) (some 10)).1.status = 200 := by
  refine ⟨?_, ?_, ?_, ?_⟩ <;> decide

/-- C1 (amended): with an authenticated owner U, a successfully created
feeding, measurement or reminder is stored with U's id and appears in U's
subsequent GET list — unconditionally for reminders, and for feedings and
measurements provided U had fewer than 200 stored rows for that animal
(the list query is capped at 200, so rows sorting below the cap are
omitted, as the counterexample shows); and a list query for any other user
id never returns the record, because the query filters by the requesting
user's id. -/
theorem createdRecordsOwnerOnly (db : Db) (now : Nat) (tok : Option Nat)
    (ctx : AuthenticatedContext)
    (hauth : requireAuth db now tok = (some ctx, db)) :
    (∀ raw p newId a2, parseFeedingInput raw = .ok p →
      ensureAnimalOwnership db ctx.user.id p.animalId = some a2 →
      postFeeding db now tok raw newId =
        (⟨201, toFeedingResponse (mkFeedingRecord ctx.user.id p newId now)⟩,
          { db with feedings := db.feedings ++ [mkFeedingRecord ctx.user.id p newId now] }) ∧
      ((db.feedings.filter
          (fun f => f.userId == ctx.user.id && f.animalId == some p.animalId)).length < 200 →
        mkFeedingRecord ctx.user.id p newId now ∈
          feedingsQuery
            { db with feedings := db.feedings ++ [mkFeedingRecord ctx.user.id p newId now] }
            ctx.user.id p.animalId ∧
        getFeedings
            { db with feedings := db.feedings ++ [mkFeedingRecord ctx.user.id p newId now] }
            now tok (some p.animalId) =
          (⟨200, .arr ((feedingsQuery
              { db with feedings := db.feedings ++ [mkFeedingRecord ctx.user.id p newId now] }
              ctx.user.id p.animalId).map toFeedingResponse)⟩,
            { db with feedings := db.feedings ++ [mkFeedingRecord ctx.user.id p newId now] })) ∧
      (∀ db3 uid2 aid2, uid2 ≠ ctx.user.id →
        mkFeedingRecord ctx.user.id p newId now ∉ feedingsQuery db3 uid2 aid2)) ∧
    (∀ raw p newId a2, parseMeasurementInput raw = .ok p →
      ensureAnimalOwnership db ctx.user.id p.animalId = some a2 →
      postMeasurement db now tok raw newId =
        (⟨201, toMeasurementResponse (mkMeasurementLog ctx.user.id p newId now)⟩,
          { db with measurements := db.measurements ++ [mkMeasurementLog ctx.user.id p newId now] }) ∧
      ((db.measurements.filter
          (fun m => m.userId == ctx.user.id && m.animalId == some p.animalId)).length < 200 →
        mkMeasurementLog ctx.user.id p newId now ∈
          measurementsQuery
            { db with measurements := db.measurements ++ [mkMeasurementLog ctx.user.id p newId now] }
            ctx.user.id p.animalId ∧
        getMeasurements
            { db with measurements := db.measurements ++ [mkMeasurementLog ctx.user.id p newId now] }
            now tok (some p.animalId) =
          (⟨200, .arr ((measurementsQuery
              { db with measurements := db.measurements ++ [mkMeasurementLog ctx.user.id p newId now] }
              ctx.user.id p.animalId).map toMeasurementResponse)⟩,
            { db with measurements := db.measurements ++ [mkMeasurementLog ctx.user.id p newId now] })) ∧
      (∀ db3 uid2 aid2, uid2 ≠ ctx.user.id →
        mkMeasurementLog ctx.user.id p newId now ∉ measurementsQuery db3 uid2 aid2)) ∧
    (∀ raw p newId a2, parseCreateReminder raw = .ok p →
      ensureAnimalOwnership db ctx.user.id p.animalId = some a2 →
      postReminder db now tok raw newId =
        (⟨201, toReminderResponse (mkReminder ctx.user.id p newId now)⟩,
          { db with reminders := db.reminders ++ [mkReminder ctx.user.id p newId now] }) ∧
      mkReminder ctx.user.id p newId now ∈
        remindersQuery
          { db with reminders := db.reminders ++ [mkReminder ctx.user.id p newId now] }
          ctx.user.id p.animalId ∧
      getReminders
          { db with reminders := db.reminders ++ [mkReminder ctx.user.id p newId now] }
          now tok (some p.animalId) =
        (⟨200, .arr ((remindersQuery
            { db with reminders := db.reminders ++ [mkReminder ctx.user.id p newId now] }
            ctx.user.id p.animalId).map toReminderResponse)⟩,
          { db with reminders := db.reminders ++ [mkReminder ctx.user.id p newId now] }) ∧
      (∀ db3 uid2 aid2, uid2 ≠ ctx.user.id →
        mkReminder ctx.user.id p newId now ∉ remindersQuery db3 uid2 aid2)) := by
  refine ⟨?_, ?_, ?_⟩
  · intro raw p newId a2 hp ho
    refine ⟨?_, ?_, ?_⟩
    · unfold postFeeding
      simp only [hauth, hp, ho]
    · intro hlt
      have hauth2 := requireAuth_congr db
        { db with feedings := db.feedings ++ [mkFeedingRecord ctx.user.id p newId now] }
        now tok ctx rfl rfl hauth
      have hown2 : ensureAnimalOwnership
          { db with feedings := db.feedings ++ [mkFeedingRecord ctx.user.id p newId now] }
          ctx.user.id p.animalId = some a2 :=
        (ensureAnimalOwnership_congr db _ ctx.user.id p.animalId rfl).trans ho
      have hlen : ((db.feedings ++ [mkFeedingRecord ctx.user.id p newId now]).filter
          (fun f => f.userId == ctx.user.id && f.animalId == some p.animalId)).length ≤ 200 := by
        rw [List.filter_append]
        simp only [List.length_append]
        have h1 : ([mkFeedingRecord ctx.user.id p newId now].filter
            (fun f => f.userId == ctx.user.id && f.animalId == some p.animalId)).length ≤ 1 :=
          List.length_filter_le _ _
        omega
      constructor
      · refine mem_feedingsQuery_of _ _ _ _ ?_ rfl rfl hlen
        simp
      · unfold getFeedings
        simp only [hauth2, hown2]
    · intro db3 uid2 aid2 hne hmem
      exact hne ((feedingsQuery_mem_userId db3 uid2 aid2 _ hmem).symm)
  · intro raw p newId a2 hp ho
    refine ⟨?_, ?_, ?_⟩
    · unfold postMeasurement
      simp only [hauth, hp, ho]
    · intro hlt
      have hauth2 := requireAuth_congr db
        { db with measurements := db.measurements ++ [mkMeasurementLog ctx.user.id p newId now] }
        now tok ctx rfl rfl hauth
      have hown2 : ensureAnimalOwnership
          { db with measurements := db.measurements ++ [mkMeasurementLog ctx.user.id p newId now] }
          ctx.user.id p.animalId = some a2 :=
        (ensureAnimalOwnership_congr db _ ctx.user.id p.animalId rfl).trans ho
      have hlen : ((db.measurements ++ [mkMeasurementLog ctx.user.id p newId now]).filter
          (fun m => m.userId == ctx.user.id && m.animalId == some p.animalId)).length ≤ 200 := by
        rw [List.filter_append]
        simp only [List.length_append]
        have h1 : ([mkMeasurementLog ctx.user.id p newId now].filter
            (fun m => m.userId == ctx.user.id && m.animalId == some p.animalId)).length ≤ 1 :=
          List.length_filter_le _ _
        omega
      constructor
      · refine mem_measurementsQuery_of _ _ _ _ ?_ rfl rfl hlen
        simp
      · unfold getMeasurements
        simp only [hauth2, hown2]
    · intro db3 uid2 aid2 hne hmem
      exact hne ((measurementsQuery_mem_userId db3 uid2 aid2 _ hmem).symm)
  · intro raw p newId a2 hp ho
    refine ⟨?_, ?_, ?_, ?_⟩
    · unfold postReminder
      simp only [hauth, hp, ho]
    · refine mem_remindersQuery_of _ _ _ _ ?_ rfl rfl
      simp
    · have hauth2 := requireAuth_congr db
        { db with reminders := db.reminders ++ [mkReminder ctx.user.id p newId now] }
        now tok ctx rfl rfl hauth
      have hown2 : ensureAnimalOwnership
          { db with reminders := db.reminders ++ [mkReminder ctx.user.id p newId now] }
          ctx.user.id p.animalId = some a2 :=
        (ensureAnimalOwnership_congr db _ ctx.user.id p.animalId rfl).trans ho
      unfold getReminders
      simp only [hauth2, hown2]
    · intro db3 uid2 aid2 hne hmem
      exact hne ((remindersQuery_mem_userId db3 uid2 aid2 _ hmem).symm)

/-- A measurement body for alice's animal 10. -/
def measurementRaw10 : RawMeasurementInput :=
  ⟨some 10, some "weight", some 5, none, none, none⟩

/-- A reminder body for alice's animal 10. -/
def reminderRaw10 : RawCreateReminder :=
  ⟨some 10, some "feed", none, none, none, none⟩

/-- Witness for C1: alice's created feeding, measurement and reminder each
appear in her own list query, and the created feeding never appears in a
query for bob's user id. -/
theorem createdRecordsOwnerOnly_witness :
    (requireAuth twoUserDb 10 (some 100) = (some aliceCtx, twoUserDb) ∧
      parseFeedingInput lateFeedingRaw =
        .ok ⟨10, some 50, none, "mice", "1", none, none⟩ ∧
      ensureAnimalOwnership twoUserDb 1 10 = some rexAnimal ∧
      (twoUserDb.feedings.filter
        (fun f => f.userId == 1 && f.animalId == some 10)).length < 200 ∧
      parseMeasurementInput measurementRaw10 =
        .ok ⟨10, "weight", some 5, none, none, none⟩ ∧
      parseCreateReminder reminderRaw10 = .ok ⟨10, "feed", none, none, none, none⟩ ∧
      (2 : Nat) ≠ 1) ∧
    mkFeedingRecord 1 ⟨10, some 50, none, "mice", "1", none, none⟩ 70 10 ∈
      feedingsQuery
        { twoUserDb with feedings := twoUserDb.feedings ++
            [mkFeedingRecord 1 ⟨10, some 50, none, "mice", "1", none, none⟩ 70 10] }
        1 10 ∧
    mkFeedingRecord 1 ⟨10, some 50, none, "mice", "1", none, none⟩ 70 10 ∉
      feedingsQuery seededDb 2 10 ∧
    mkMeasurementLog 1 ⟨10, "weight", some 5, none, none, none⟩ 71 10 ∈
      measurementsQuery
        { twoUserDb with measurements := twoUserDb.measurements ++
            [mkMeasurementLog 1 ⟨10, "weight", some 5, none, none, none⟩ 71 10] }
        1 10 ∧
    mkReminder 1 ⟨10, "feed", none, none, none, none⟩ 72 10 ∈
      remindersQuery
        { twoUserDb with reminders := twoUserDb.reminders ++
            [mkReminder 1 ⟨10, "feed", none, none, none, none⟩ 72 10] }
        1 10 :=
  ⟨⟨by decide, rfl, by decide, by decide, rfl, rfl, by decide⟩,
    (((createdRecordsOwnerOnly twoUserDb 10 (some 100) aliceCtx (by decide)).1
      lateFeedingRaw ⟨10, some 50, none, "mice", "1", none, none⟩ 70 rexAnimal
      rfl (by decide)).2.1 (by decide)).1,
    ((createdRecordsOwnerOnly twoUserDb 10 (some 100) aliceCtx (by decide)).1
      lateFeedingRaw ⟨10, some 50, none, "mice", "1", none, none⟩ 70 rexAnimal
      rfl (by decide)).2.2 seededDb 2 10 (by decide),
    (((createdRecordsOwnerOnly twoUserDb 10 (some 100) aliceCtx (by decide)).2.1
      measurementRaw10 ⟨10, "weight", some 5, none, none, none⟩ 71 rexAnimal
      rfl (by decide)).2.1 (by decide)).1,
    ((createdRecordsOwnerOnly twoUserDb 10 (some 100) aliceCtx (by decide)).2.2
      reminderRaw10 ⟨10, "feed", none, none, none, none⟩ 72 rexAnimal
      rfl (by decide)).2.1⟩
